import Mathlib

/-!
A shallow embedding of the tic-tac-toe decision engine (src/tictactoe.py)
and proofs of its specification claims.

The Python module represents a board as a 3x3 list of lists whose cells hold
"X", "O" or None.  Here a board is a record of nine cells addressed through
the indexing function cell (row and column in Fin 3), and every operation of
the module is translated below keeping the source's names (player, actions,
result, winner, terminal, utility, minimax).

Python's unbounded recursion in minimax is rendered with an explicit fuel
parameter (structural recursion on Nat); fuel 9 always suffices because a
board has at most nine empty cells, and the theorems below prove that any
fuel at least the number of empty cells yields the same value, so the fuel is
an artifact of the embedding, not of the algorithm.
-/

inductive Player where
  | X : Player
  | O : Player
deriving DecidableEq, Repr, Fintype

abbrev Cell := Option Player

/-- The 3x3 grid: cell aij sits at row i, column j. -/
structure Board where
  a00 : Cell
  a01 : Cell
  a02 : Cell
  a10 : Cell
  a11 : Cell
  a12 : Cell
  a20 : Cell
  a21 : Cell
  a22 : Cell
deriving DecidableEq, Repr

abbrev Move := Fin 3 × Fin 3

/-- Indexing, mirroring Python board[i][j]. -/
def cell (b : Board) (i j : Fin 3) : Cell :=
  match i.val, j.val with
  | 0, 0 => b.a00
  | 0, 1 => b.a01
  | 0, _ => b.a02
  | 1, 0 => b.a10
  | 1, 1 => b.a11
  | 1, _ => b.a12
  | _, 0 => b.a20
  | _, 1 => b.a21
  | _, _ => b.a22

/-- Writing one cell, mirroring Python new_board[i][j] = mark. -/
def setCell (b : Board) (i j : Fin 3) (c : Cell) : Board :=
  match i.val, j.val with
  | 0, 0 => { b with a00 := c }
  | 0, 1 => { b with a01 := c }
  | 0, _ => { b with a02 := c }
  | 1, 0 => { b with a10 := c }
  | 1, 1 => { b with a11 := c }
  | 1, _ => { b with a12 := c }
  | _, 0 => { b with a20 := c }
  | _, 1 => { b with a21 := c }
  | _, _ => { b with a22 := c }

/-- Source initial_state: the all-empty 3x3 grid. -/
def initial_state : Board :=
  ⟨none, none, none, none, none, none, none, none, none⟩

/-- One row of the board as a list, mirroring a row of the Python list of
lists. -/
def rowList (b : Board) (i : Fin 3) : List Cell :=
  [cell b i 0, cell b i 1, cell b i 2]

/-- The board as a list of rows, mirroring Python iteration over the board. -/
def rows (b : Board) : List (List Cell) := (List.finRange 3).map (rowList b)

/-- Source player: x_count, the number of X marks on the board. -/
def xCount (b : Board) : Nat :=
  ((rows b).map (fun r => r.count (some Player.X))).sum

/-- Source player: o_count, the number of O marks on the board. -/
def oCount (b : Board) : Nat :=
  ((rows b).map (fun r => r.count (some Player.O))).sum

/-- Source player: X if x_count is at most o_count, else O. -/
def player (b : Board) : Player :=
  if xCount b ≤ oCount b then Player.X else Player.O

/-- The nine coordinates scanned by the nested loops of actions, in row-major
order. -/
def allCells : List Move :=
  (List.finRange 3).flatMap (fun i => (List.finRange 3).map (fun j => (i, j)))

/-- Source actions: the set of coordinates of empty cells.  Python builds a
set by a row-major scan; the embedding keeps the scan as a duplicate-free
list. -/
def actions (b : Board) : List Move :=
  allCells.filter (fun m => decide (cell b m.1 m.2 = none))

/-- The board update performed by source result on a legal move: the target
cell receives the mark of the player to move on the input board and all other
cells are copied (Python deep-copies the board and then assigns one cell, so
the input board itself is never mutated). -/
def place (b : Board) (m : Move) : Board :=
  setCell b m.1 m.2 (some (player b))

/-- Source result: raises ValueError on an occupied target cell, otherwise
returns the updated copy of the board.  The raise is rendered as Except; it
happens before the copy, so on the error path no board is built at all. -/
def result (b : Board) (m : Move) : Except String Board :=
  if cell b m.1 m.2 ≠ none then Except.error "Invalid action: cell is not empty."
  else Except.ok (place b m)

/-- One line check of source winner: if all three cells hold the same
non-empty mark, that mark, else none. -/
def checkLine (a b c : Cell) : Option Player :=
  match a with
  | some p => if b = some p ∧ c = some p then some p else none
  | none => none

/-- Source winner: scan rows top to bottom, then columns left to right, then
the main diagonal, then the anti-diagonal, returning the first filled line's
mark, and none when no line is filled. -/
def winner (b : Board) : Option Player :=
  ((List.finRange 3).findSome? (fun i => checkLine (cell b i 0) (cell b i 1) (cell b i 2))) <|>
  ((List.finRange 3).findSome? (fun j => checkLine (cell b 0 j) (cell b 1 j) (cell b 2 j))) <|>
  (checkLine (cell b 0 0) (cell b 1 1) (cell b 2 2)) <|>
  (checkLine (cell b 0 2) (cell b 1 1) (cell b 2 0))

/-- Source terminal: true iff there is a winner or no row contains an empty
cell. -/
def terminal (b : Board) : Bool :=
  if winner b ≠ none then true
  else ! (rows b).any (fun r => r.any (fun c => decide (c = none)))

/-- Source utility: 1 if X won, -1 if O won, 0 otherwise. -/
def utility (b : Board) : Int :=
  match winner b with
  | some Player.X => 1
  | some Player.O => -1
  | _ => 0

/-- Stand-in for Python's -math.inf: every utility lies in [-1, 1], so -2
compares strictly below every value the search produces. -/
def negInf : Int := -2

/-- Stand-in for Python's math.inf. -/
def posInf : Int := 2

mutual

/-- Source max_value: on a terminal board its utility, otherwise the running
maximum, over the legal moves, of min_value of the successor. -/
def max_value (fuel : Nat) (b : Board) : Int :=
  if terminal b then utility b
  else
    match fuel with
    | 0 => 0
    | fuel + 1 =>
      (actions b).foldl (fun v a => max v (min_value fuel (place b a))) negInf

/-- Source min_value: on a terminal board its utility, otherwise the running
minimum, over the legal moves, of max_value of the successor. -/
def min_value (fuel : Nat) (b : Board) : Int :=
  if terminal b then utility b
  else
    match fuel with
    | 0 => 0
    | fuel + 1 =>
      (actions b).foldl (fun v a => min v (max_value fuel (place b a))) posInf

end

set_option maxRecDepth 40000

/-- Source minimax: none on a terminal board; otherwise, for X, the first
legal move whose min_value strictly improves on the best so far (starting
from -inf), and dually for O.  Fuel 9 bounds every recursion depth. -/
def minimax (b : Board) : Option Move :=
  if terminal b then none
  else if player b = Player.X then
    ((actions b).foldl
      (fun s a =>
        let av := min_value 9 (place b a)
        if s.2 < av then (some a, av) else s)
      ((none : Option Move), negInf)).1
  else
    ((actions b).foldl
      (fun s a =>
        let av := max_value 9 (place b a)
        if av < s.2 then (some a, av) else s)
      ((none : Option Move), posInf)).1

/-- Self play: starting from a board, repeatedly apply the move chosen by
minimax for whichever side is to move (a none answer means the game has
ended and the board stays put). -/
def selfPlay : Nat → Board → Board
  | 0, b => b
  | n + 1, b =>
    match minimax b with
    | none => b
    | some m => selfPlay n (place b m)

/-- The eight winning lines in the order fixed by the spec: rows top to
bottom, then columns left to right, then the main diagonal, then the
anti-diagonal. -/
def specLines (b : Board) : List (Cell × Cell × Cell) :=
  [ (cell b 0 0, cell b 0 1, cell b 0 2),
    (cell b 1 0, cell b 1 1, cell b 1 2),
    (cell b 2 0, cell b 2 1, cell b 2 2),
    (cell b 0 0, cell b 1 0, cell b 2 0),
    (cell b 0 1, cell b 1 1, cell b 2 1),
    (cell b 0 2, cell b 1 2, cell b 2 2),
    (cell b 0 0, cell b 1 1, cell b 2 2),
    (cell b 0 2, cell b 1 1, cell b 2 0) ]

/-- Win detection in the words of the spec: the winner is the mark of the
first line, in the fixed order of specLines, whose three cells all hold the
same non-empty mark; none if no line is so filled.  winner is proved equal
to this function below. -/
def winnerSpec (b : Board) : Option Player :=
  (specLines b).findSome?
    (fun l => if l.2.1 = l.1 ∧ l.2.2 = l.1 ∧ l.1.isSome then l.1 else none)

/-- A strategy certificate for a bound on a minimax value: at a node where
the bounded side picks, a single move and a sub-certificate; at a node where
the opponent picks, one sub-certificate per legal move (in the order of
actions); leaves carry no data. -/
inductive Cert where
  | leaf : Cert
  | move : Move → Cert → Cert
  | branch : List Cert → Cert

/-- Certificate checker: certChk fuel lo isMax b t c = true certifies
t ≤ v (when lo) or v ≤ t (when not lo), where v is max_value fuel b when
isMax and min_value fuel b otherwise.  Soundness is proved below; the
checker recurses on fuel exactly as the value functions do. -/
def certChk (fuel : Nat) : Bool → Bool → Board → Int → Cert → Bool :=
  Nat.rec (motive := fun _ => Bool → Bool → Board → Int → Cert → Bool)
    (fun lo _ b t _ =>
      if terminal b then (if lo then decide (t ≤ utility b) else decide (utility b ≤ t))
      else (if lo then decide (t ≤ 0) else decide (0 ≤ t)))
    (fun _ ih lo isMax b t c =>
      if terminal b then (if lo then decide (t ≤ utility b) else decide (utility b ≤ t))
      else if lo == isMax then
        match c with
        | Cert.move m c2 => decide (m ∈ actions b) && ih lo (!isMax) (place b m) t c2
        | _ => false
      else
        match c with
        | Cert.branch cs =>
          (actions b).length == cs.length &&
          ((actions b).zip cs).all (fun p => ih lo (!isMax) (place b p.1) t p.2)
        | _ => false)
    fuel

/-- The board of the spec's win-in-one scenario:
[[X, X, empty], [O, O, empty], [empty, empty, empty]]. -/
def scenarioBoard : Board :=
  ⟨some Player.X, some Player.X, none,
   some Player.O, some Player.O, none,
   none, none, none⟩

/-- A terminal board (X won on the top row) that still has empty cells. -/
def wonBoard : Board :=
  ⟨some Player.X, some Player.X, some Player.X,
   some Player.O, some Player.O, none,
   none, none, none⟩

def pickMax {α : Type} (f : α → Int) (l : List α) (s : Option α × Int) : Option α × Int :=
  l.foldl (fun s a => let av := f a; if s.2 < av then (some a, av) else s) s

def pickMin {α : Type} (f : α → Int) (l : List α) (s : Option α × Int) : Option α × Int :=
  l.foldl (fun s a => let av := f a; if av < s.2 then (some a, av) else s) s

def c8b1 : Board :=
  ⟨some Player.X, none, none, none, none, none, none, none, none⟩

def c8b2 : Board :=
  ⟨some Player.X, none, none, none, some Player.O, none, none, none, none⟩

def c8b3 : Board :=
  ⟨some Player.X, some Player.X, none, none, some Player.O, none, none, none, none⟩

def c8b4 : Board :=
  ⟨some Player.X, some Player.X, some Player.O, none, some Player.O, none, none, none, none⟩

def c8b5 : Board :=
  ⟨some Player.X, some Player.X, some Player.O, none, some Player.O, none, some Player.X, none, none⟩

def c8b6 : Board :=
  ⟨some Player.X, some Player.X, some Player.O, some Player.O, some Player.O, none, some Player.X, none, none⟩

def c8b7 : Board :=
  ⟨some Player.X, some Player.X, some Player.O, some Player.O, some Player.O, some Player.X, some Player.X, none, none⟩

def c8b8 : Board :=
  ⟨some Player.X, some Player.X, some Player.O, some Player.O, some Player.O, some Player.X, some Player.X, some Player.O, none⟩

def c8b9 : Board :=
  ⟨some Player.X, some Player.X, some Player.O, some Player.O, some Player.O, some Player.X, some Player.X, some Player.O, some Player.X⟩

def c8cert1 : Cert :=
  Cert.branch [Cert.move (1, 0) (Cert.branch [Cert.move (2, 0) (Cert.leaf), Cert.move (2, 0) (Cert.leaf), Cert.move (2, 0) (Cert.leaf), Cert.move (1, 1) (Cert.branch [Cert.move (1, 2) (Cert.leaf), Cert.move (2, 2) (Cert.leaf), Cert.move (1, 2) (Cert.leaf), Cert.move (1, 2) (Cert.leaf)]), Cert.move (2, 0) (Cert.leaf), Cert.move (2, 0) (Cert.leaf)]), Cert.move (1, 0) (Cert.branch [Cert.move (2, 0) (Cert.leaf), Cert.move (2, 0) (Cert.leaf), Cert.move (2, 0) (Cert.leaf), Cert.move (1, 1) (Cert.branch [Cert.move (1, 2) (Cert.leaf), Cert.move (2, 2) (Cert.leaf), Cert.move (1, 2) (Cert.leaf), Cert.move (1, 2) (Cert.leaf)]), Cert.move (2, 0) (Cert.leaf), Cert.move (2, 0) (Cert.leaf)]), Cert.move (0, 1) (Cert.branch [Cert.move (1, 1) (Cert.branch [Cert.move (2, 1) (Cert.leaf), Cert.move (2, 1) (Cert.leaf), Cert.move (2, 2) (Cert.leaf), Cert.move (2, 1) (Cert.leaf)]), Cert.move (0, 2) (Cert.leaf), Cert.move (0, 2) (Cert.leaf), Cert.move (0, 2) (Cert.leaf), Cert.move (0, 2) (Cert.leaf), Cert.move (0, 2) (Cert.leaf)]), Cert.move (0, 1) (Cert.branch [Cert.move (2, 0) (Cert.branch [Cert.move (1, 2) (Cert.branch [Cert.move (2, 2) (Cert.leaf), Cert.move (2, 1) (Cert.leaf)]), Cert.move (1, 0) (Cert.leaf), Cert.move (1, 0) (Cert.leaf), Cert.move (1, 0) (Cert.leaf)]), Cert.move (0, 2) (Cert.leaf), Cert.move (0, 2) (Cert.leaf), Cert.move (0, 2) (Cert.leaf), Cert.move (0, 2) (Cert.leaf), Cert.move (0, 2) (Cert.leaf)]), Cert.move (0, 2) (Cert.branch [Cert.move (1, 1) (Cert.branch [Cert.move (2, 0) (Cert.leaf), Cert.move (2, 2) (Cert.leaf), Cert.move (2, 0) (Cert.leaf), Cert.move (2, 0) (Cert.leaf)]), Cert.move (0, 1) (Cert.leaf), Cert.move (0, 1) (Cert.leaf), Cert.move (0, 1) (Cert.leaf), Cert.move (0, 1) (Cert.leaf), Cert.move (0, 1) (Cert.leaf)]), Cert.move (0, 1) (Cert.branch [Cert.move (1, 1) (Cert.branch [Cert.move (2, 1) (Cert.leaf), Cert.move (2, 1) (Cert.leaf), Cert.move (2, 2) (Cert.leaf), Cert.move (2, 1) (Cert.leaf)]), Cert.move (0, 2) (Cert.leaf), Cert.move (0, 2) (Cert.leaf), Cert.move (0, 2) (Cert.leaf), Cert.move (0, 2) (Cert.leaf), Cert.move (0, 2) (Cert.leaf)]), Cert.move (0, 2) (Cert.branch [Cert.move (1, 1) (Cert.branch [Cert.move (2, 0) (Cert.leaf), Cert.move (2, 0) (Cert.leaf), Cert.move (2, 2) (Cert.leaf), Cert.move (2, 0) (Cert.leaf)]), Cert.move (0, 1) (Cert.leaf), Cert.move (0, 1) (Cert.leaf), Cert.move (0, 1) (Cert.leaf), Cert.move (0, 1) (Cert.leaf), Cert.move (0, 1) (Cert.leaf)]), Cert.move (0, 2) (Cert.branch [Cert.move (2, 0) (Cert.branch [Cert.move (1, 1) (Cert.leaf), Cert.move (1, 0) (Cert.leaf), Cert.move (1, 0) (Cert.leaf), Cert.move (1, 0) (Cert.leaf)]), Cert.move (0, 1) (Cert.leaf), Cert.move (0, 1) (Cert.leaf), Cert.move (0, 1) (Cert.leaf), Cert.move (0, 1) (Cert.leaf), Cert.move (0, 1) (Cert.leaf)])]

def c8cert2 : Cert :=
  Cert.move (1, 1) (Cert.branch [Cert.move (0, 2) (Cert.branch [Cert.move (2, 0) (Cert.leaf), Cert.move (2, 0) (Cert.leaf), Cert.move (1, 0) (Cert.branch [Cert.move (2, 1) (Cert.branch [Cert.leaf]), Cert.move (1, 2) (Cert.leaf), Cert.move (1, 2) (Cert.leaf)]), Cert.move (2, 0) (Cert.leaf), Cert.move (2, 0) (Cert.leaf)]), Cert.move (0, 1) (Cert.branch [Cert.move (2, 1) (Cert.leaf), Cert.move (2, 1) (Cert.leaf), Cert.move (2, 1) (Cert.leaf), Cert.move (1, 0) (Cert.branch [Cert.move (2, 2) (Cert.branch [Cert.leaf]), Cert.move (1, 2) (Cert.leaf), Cert.move (1, 2) (Cert.leaf)]), Cert.move (2, 1) (Cert.leaf)]), Cert.move (2, 0) (Cert.branch [Cert.move (0, 2) (Cert.leaf), Cert.move (0, 1) (Cert.branch [Cert.move (2, 1) (Cert.leaf), Cert.move (1, 2) (Cert.branch [Cert.leaf]), Cert.move (2, 1) (Cert.leaf)]), Cert.move (0, 2) (Cert.leaf), Cert.move (0, 2) (Cert.leaf), Cert.move (0, 2) (Cert.leaf)]), Cert.move (0, 1) (Cert.branch [Cert.move (2, 1) (Cert.leaf), Cert.move (2, 1) (Cert.leaf), Cert.move (2, 1) (Cert.leaf), Cert.move (2, 0) (Cert.branch [Cert.move (2, 2) (Cert.branch [Cert.leaf]), Cert.move (0, 2) (Cert.leaf), Cert.move (0, 2) (Cert.leaf)]), Cert.move (2, 1) (Cert.leaf)]), Cert.move (1, 0) (Cert.branch [Cert.move (1, 2) (Cert.leaf), Cert.move (1, 2) (Cert.leaf), Cert.move (0, 1) (Cert.branch [Cert.move (2, 1) (Cert.leaf), Cert.move (2, 2) (Cert.branch [Cert.leaf]), Cert.move (2, 1) (Cert.leaf)]), Cert.move (1, 2) (Cert.leaf), Cert.move (1, 2) (Cert.leaf)]), Cert.move (1, 0) (Cert.branch [Cert.move (1, 2) (Cert.leaf), Cert.move (1, 2) (Cert.leaf), Cert.move (0, 2) (Cert.branch [Cert.move (2, 0) (Cert.leaf), Cert.move (2, 2) (Cert.branch [Cert.leaf]), Cert.move (2, 0) (Cert.leaf)]), Cert.move (1, 2) (Cert.leaf), Cert.move (1, 2) (Cert.leaf)]), Cert.move (0, 1) (Cert.branch [Cert.move (2, 1) (Cert.leaf), Cert.move (2, 1) (Cert.leaf), Cert.move (2, 1) (Cert.leaf), Cert.move (2, 1) (Cert.leaf), Cert.move (2, 0) (Cert.branch [Cert.move (1, 2) (Cert.branch [Cert.leaf]), Cert.move (0, 2) (Cert.leaf), Cert.move (0, 2) (Cert.leaf)])])])

def c8cert3 : Cert :=
  Cert.move (1, 1) (Cert.branch [Cert.move (0, 2) (Cert.branch [Cert.move (2, 0) (Cert.leaf), Cert.move (2, 0) (Cert.leaf), Cert.move (1, 0) (Cert.branch [Cert.move (2, 1) (Cert.branch [Cert.leaf]), Cert.move (1, 2) (Cert.leaf), Cert.move (1, 2) (Cert.leaf)]), Cert.move (2, 0) (Cert.leaf), Cert.move (2, 0) (Cert.leaf)]), Cert.move (0, 0) (Cert.branch [Cert.move (2, 2) (Cert.leaf), Cert.move (2, 2) (Cert.leaf), Cert.move (2, 2) (Cert.leaf), Cert.move (2, 2) (Cert.leaf), Cert.move (1, 2) (Cert.branch [Cert.move (2, 0) (Cert.branch [Cert.leaf]), Cert.move (1, 0) (Cert.leaf), Cert.move (1, 0) (Cert.leaf)])]), Cert.move (0, 0) (Cert.branch [Cert.move (2, 2) (Cert.leaf), Cert.move (2, 2) (Cert.leaf), Cert.move (2, 2) (Cert.leaf), Cert.move (2, 2) (Cert.leaf), Cert.move (0, 2) (Cert.branch [Cert.move (2, 0) (Cert.leaf), Cert.move (2, 1) (Cert.branch [Cert.leaf]), Cert.move (2, 0) (Cert.leaf)])]), Cert.move (0, 0) (Cert.branch [Cert.move (2, 2) (Cert.leaf), Cert.move (2, 2) (Cert.leaf), Cert.move (2, 2) (Cert.leaf), Cert.move (2, 2) (Cert.leaf), Cert.move (0, 2) (Cert.branch [Cert.move (2, 0) (Cert.leaf), Cert.move (2, 1) (Cert.branch [Cert.leaf]), Cert.move (2, 0) (Cert.leaf)])]), Cert.move (1, 0) (Cert.branch [Cert.move (1, 2) (Cert.leaf), Cert.move (1, 2) (Cert.leaf), Cert.move (2, 2) (Cert.branch [Cert.move (0, 2) (Cert.branch [Cert.leaf]), Cert.move (0, 0) (Cert.leaf), Cert.move (0, 0) (Cert.leaf)]), Cert.move (1, 2) (Cert.leaf), Cert.move (1, 2) (Cert.leaf)]), Cert.move (0, 0) (Cert.branch [Cert.move (2, 2) (Cert.leaf), Cert.move (2, 2) (Cert.leaf), Cert.move (2, 2) (Cert.leaf), Cert.move (2, 2) (Cert.leaf), Cert.move (2, 0) (Cert.branch [Cert.move (1, 0) (Cert.leaf), Cert.move (0, 2) (Cert.leaf), Cert.move (0, 2) (Cert.leaf)])]), Cert.move (1, 0) (Cert.branch [Cert.move (1, 2) (Cert.leaf), Cert.move (1, 2) (Cert.leaf), Cert.move (0, 2) (Cert.branch [Cert.move (2, 0) (Cert.leaf), Cert.move (2, 1) (Cert.branch [Cert.leaf]), Cert.move (2, 0) (Cert.leaf)]), Cert.move (1, 2) (Cert.leaf), Cert.move (1, 2) (Cert.leaf)])])

def c8cert4 : Cert :=
  Cert.move (1, 1) (Cert.branch [Cert.move (0, 1) (Cert.branch [Cert.move (2, 1) (Cert.leaf), Cert.move (2, 1) (Cert.leaf), Cert.move (2, 1) (Cert.leaf), Cert.move (1, 0) (Cert.branch [Cert.move (2, 2) (Cert.branch [Cert.leaf]), Cert.move (1, 2) (Cert.leaf), Cert.move (1, 2) (Cert.leaf)]), Cert.move (2, 1) (Cert.leaf)]), Cert.move (0, 0) (Cert.branch [Cert.move (2, 2) (Cert.leaf), Cert.move (2, 2) (Cert.leaf), Cert.move (2, 2) (Cert.leaf), Cert.move (2, 2) (Cert.leaf), Cert.move (1, 2) (Cert.branch [Cert.move (2, 0) (Cert.branch [Cert.leaf]), Cert.move (1, 0) (Cert.leaf), Cert.move (1, 0) (Cert.leaf)])]), Cert.move (0, 1) (Cert.branch [Cert.move (2, 1) (Cert.leaf), Cert.move (2, 1) (Cert.leaf), Cert.move (2, 1) (Cert.leaf), Cert.move (2, 2) (Cert.branch [Cert.move (2, 0) (Cert.branch [Cert.leaf]), Cert.move (0, 0) (Cert.leaf), Cert.move (0, 0) (Cert.leaf)]), Cert.move (2, 1) (Cert.leaf)]), Cert.move (2, 2) (Cert.branch [Cert.move (0, 1) (Cert.branch [Cert.move (2, 1) (Cert.leaf), Cert.move (2, 1) (Cert.leaf), Cert.move (1, 0) (Cert.branch [Cert.leaf])]), Cert.move (0, 0) (Cert.leaf), Cert.move (0, 0) (Cert.leaf), Cert.move (0, 0) (Cert.leaf), Cert.move (0, 0) (Cert.leaf)]), Cert.move (0, 1) (Cert.branch [Cert.move (2, 1) (Cert.leaf), Cert.move (2, 1) (Cert.leaf), Cert.move (2, 1) (Cert.leaf), Cert.move (2, 2) (Cert.branch [Cert.move (1, 0) (Cert.branch [Cert.leaf]), Cert.move (0, 0) (Cert.leaf), Cert.move (0, 0) (Cert.leaf)]), Cert.move (2, 1) (Cert.leaf)]), Cert.move (1, 0) (Cert.branch [Cert.move (1, 2) (Cert.leaf), Cert.move (1, 2) (Cert.leaf), Cert.move (2, 2) (Cert.branch [Cert.move (0, 1) (Cert.branch [Cert.leaf]), Cert.move (0, 0) (Cert.leaf), Cert.move (0, 0) (Cert.leaf)]), Cert.move (1, 2) (Cert.leaf), Cert.move (1, 2) (Cert.leaf)]), Cert.move (1, 2) (Cert.branch [Cert.move (1, 0) (Cert.leaf), Cert.move (1, 0) (Cert.leaf), Cert.move (0, 1) (Cert.branch [Cert.move (2, 1) (Cert.leaf), Cert.move (2, 1) (Cert.leaf), Cert.move (2, 0) (Cert.branch [Cert.leaf])]), Cert.move (1, 0) (Cert.leaf), Cert.move (1, 0) (Cert.leaf)])])

def c8cert5 : Cert :=
  Cert.move (1, 1) (Cert.branch [Cert.move (2, 0) (Cert.branch [Cert.move (0, 2) (Cert.leaf), Cert.move (0, 1) (Cert.branch [Cert.move (2, 1) (Cert.leaf), Cert.move (1, 2) (Cert.branch [Cert.leaf]), Cert.move (2, 1) (Cert.leaf)]), Cert.move (0, 2) (Cert.leaf), Cert.move (0, 2) (Cert.leaf), Cert.move (0, 2) (Cert.leaf)]), Cert.move (0, 0) (Cert.branch [Cert.move (2, 2) (Cert.leaf), Cert.move (2, 2) (Cert.leaf), Cert.move (2, 2) (Cert.leaf), Cert.move (2, 2) (Cert.leaf), Cert.move (0, 2) (Cert.branch [Cert.move (2, 0) (Cert.leaf), Cert.move (2, 1) (Cert.branch [Cert.leaf]), Cert.move (2, 0) (Cert.leaf)])]), Cert.move (0, 1) (Cert.branch [Cert.move (2, 1) (Cert.leaf), Cert.move (2, 1) (Cert.leaf), Cert.move (2, 1) (Cert.leaf), Cert.move (2, 2) (Cert.branch [Cert.move (2, 0) (Cert.branch [Cert.leaf]), Cert.move (0, 0) (Cert.leaf), Cert.move (0, 0) (Cert.leaf)]), Cert.move (2, 1) (Cert.leaf)]), Cert.move (0, 0) (Cert.branch [Cert.move (2, 2) (Cert.leaf), Cert.move (2, 2) (Cert.leaf), Cert.move (2, 2) (Cert.leaf), Cert.move (2, 2) (Cert.leaf), Cert.move (0, 2) (Cert.branch [Cert.move (2, 0) (Cert.leaf), Cert.move (0, 1) (Cert.leaf), Cert.move (0, 1) (Cert.leaf)])]), Cert.move (0, 0) (Cert.branch [Cert.move (2, 2) (Cert.leaf), Cert.move (2, 2) (Cert.leaf), Cert.move (2, 2) (Cert.leaf), Cert.move (2, 2) (Cert.leaf), Cert.move (2, 1) (Cert.branch [Cert.move (0, 2) (Cert.branch [Cert.leaf]), Cert.move (0, 1) (Cert.leaf), Cert.move (0, 1) (Cert.leaf)])]), Cert.move (0, 0) (Cert.branch [Cert.move (2, 2) (Cert.leaf), Cert.move (2, 2) (Cert.leaf), Cert.move (2, 2) (Cert.leaf), Cert.move (2, 2) (Cert.leaf), Cert.move (2, 0) (Cert.branch [Cert.move (0, 2) (Cert.leaf), Cert.move (1, 2) (Cert.branch [Cert.leaf]), Cert.move (0, 2) (Cert.leaf)])]), Cert.move (0, 1) (Cert.branch [Cert.move (2, 1) (Cert.leaf), Cert.move (2, 1) (Cert.leaf), Cert.move (2, 1) (Cert.leaf), Cert.move (2, 1) (Cert.leaf), Cert.move (2, 0) (Cert.branch [Cert.move (0, 2) (Cert.leaf), Cert.move (1, 2) (Cert.branch [Cert.leaf]), Cert.move (0, 2) (Cert.leaf)])])])

def c8cert6 : Cert :=
  Cert.move (0, 0) (Cert.branch [Cert.move (2, 1) (Cert.branch [Cert.move (2, 0) (Cert.branch [Cert.move (2, 2) (Cert.leaf), Cert.move (1, 0) (Cert.leaf), Cert.move (1, 0) (Cert.leaf)]), Cert.move (1, 2) (Cert.branch [Cert.move (2, 0) (Cert.branch [Cert.leaf]), Cert.move (0, 2) (Cert.branch [Cert.leaf]), Cert.move (0, 2) (Cert.branch [Cert.leaf])]), Cert.move (1, 0) (Cert.branch [Cert.move (2, 0) (Cert.leaf), Cert.move (0, 2) (Cert.branch [Cert.leaf]), Cert.move (2, 0) (Cert.leaf)]), Cert.move (0, 2) (Cert.branch [Cert.move (1, 2) (Cert.branch [Cert.leaf]), Cert.move (1, 0) (Cert.branch [Cert.leaf]), Cert.move (1, 0) (Cert.branch [Cert.leaf])]), Cert.move (1, 0) (Cert.branch [Cert.move (2, 0) (Cert.leaf), Cert.move (2, 0) (Cert.leaf), Cert.move (0, 2) (Cert.branch [Cert.leaf])])]), Cert.move (2, 0) (Cert.branch [Cert.move (1, 0) (Cert.leaf), Cert.move (1, 2) (Cert.branch [Cert.move (2, 1) (Cert.branch [Cert.leaf]), Cert.move (0, 1) (Cert.branch [Cert.leaf]), Cert.move (0, 1) (Cert.branch [Cert.leaf])]), Cert.move (1, 0) (Cert.leaf), Cert.move (1, 0) (Cert.leaf), Cert.move (1, 0) (Cert.leaf)]), Cert.move (1, 2) (Cert.branch [Cert.move (2, 1) (Cert.branch [Cert.move (2, 0) (Cert.branch [Cert.leaf]), Cert.move (0, 2) (Cert.branch [Cert.leaf]), Cert.move (0, 2) (Cert.branch [Cert.leaf])]), Cert.move (2, 0) (Cert.branch [Cert.move (2, 1) (Cert.branch [Cert.leaf]), Cert.move (0, 1) (Cert.branch [Cert.leaf]), Cert.move (0, 1) (Cert.branch [Cert.leaf])]), Cert.move (0, 2) (Cert.branch [Cert.move (2, 2) (Cert.leaf), Cert.move (0, 1) (Cert.leaf), Cert.move (0, 1) (Cert.leaf)]), Cert.move (0, 1) (Cert.branch [Cert.move (2, 0) (Cert.branch [Cert.leaf]), Cert.move (0, 2) (Cert.leaf), Cert.move (0, 2) (Cert.leaf)]), Cert.move (0, 1) (Cert.branch [Cert.move (2, 0) (Cert.branch [Cert.leaf]), Cert.move (0, 2) (Cert.leaf), Cert.move (0, 2) (Cert.leaf)])]), Cert.move (1, 0) (Cert.branch [Cert.move (2, 0) (Cert.leaf), Cert.move (2, 0) (Cert.leaf), Cert.move (0, 2) (Cert.branch [Cert.move (2, 1) (Cert.branch [Cert.leaf]), Cert.move (0, 1) (Cert.leaf), Cert.move (0, 1) (Cert.leaf)]), Cert.move (2, 0) (Cert.leaf), Cert.move (2, 0) (Cert.leaf)]), Cert.move (0, 2) (Cert.branch [Cert.move (2, 1) (Cert.branch [Cert.move (1, 2) (Cert.branch [Cert.leaf]), Cert.move (1, 0) (Cert.branch [Cert.leaf]), Cert.move (1, 0) (Cert.branch [Cert.leaf])]), Cert.move (0, 1) (Cert.leaf), Cert.move (0, 1) (Cert.leaf), Cert.move (0, 1) (Cert.leaf), Cert.move (0, 1) (Cert.leaf)]), Cert.move (0, 1) (Cert.branch [Cert.move (2, 0) (Cert.branch [Cert.move (1, 2) (Cert.branch [Cert.leaf]), Cert.move (1, 0) (Cert.leaf), Cert.move (1, 0) (Cert.leaf)]), Cert.move (0, 2) (Cert.leaf), Cert.move (0, 2) (Cert.leaf), Cert.move (0, 2) (Cert.leaf), Cert.move (0, 2) (Cert.leaf)]), Cert.move (0, 2) (Cert.branch [Cert.move (2, 1) (Cert.branch [Cert.move (1, 2) (Cert.branch [Cert.leaf]), Cert.move (1, 0) (Cert.branch [Cert.leaf]), Cert.move (1, 0) (Cert.branch [Cert.leaf])]), Cert.move (0, 1) (Cert.leaf), Cert.move (0, 1) (Cert.leaf), Cert.move (0, 1) (Cert.leaf), Cert.move (0, 1) (Cert.leaf)])])

def c8cert7 : Cert :=
  Cert.move (1, 1) (Cert.branch [Cert.move (0, 1) (Cert.branch [Cert.move (2, 1) (Cert.leaf), Cert.move (2, 1) (Cert.leaf), Cert.move (2, 1) (Cert.leaf), Cert.move (2, 0) (Cert.branch [Cert.move (2, 2) (Cert.branch [Cert.leaf]), Cert.move (0, 2) (Cert.leaf), Cert.move (0, 2) (Cert.leaf)]), Cert.move (2, 1) (Cert.leaf)]), Cert.move (0, 0) (Cert.branch [Cert.move (2, 2) (Cert.leaf), Cert.move (2, 2) (Cert.leaf), Cert.move (2, 2) (Cert.leaf), Cert.move (2, 2) (Cert.leaf), Cert.move (0, 2) (Cert.branch [Cert.move (2, 0) (Cert.leaf), Cert.move (2, 1) (Cert.branch [Cert.leaf]), Cert.move (2, 0) (Cert.leaf)])]), Cert.move (2, 2) (Cert.branch [Cert.move (0, 1) (Cert.branch [Cert.move (2, 1) (Cert.leaf), Cert.move (2, 1) (Cert.leaf), Cert.move (1, 0) (Cert.branch [Cert.leaf])]), Cert.move (0, 0) (Cert.leaf), Cert.move (0, 0) (Cert.leaf), Cert.move (0, 0) (Cert.leaf), Cert.move (0, 0) (Cert.leaf)]), Cert.move (0, 0) (Cert.branch [Cert.move (2, 2) (Cert.leaf), Cert.move (2, 2) (Cert.leaf), Cert.move (2, 2) (Cert.leaf), Cert.move (2, 2) (Cert.leaf), Cert.move (0, 2) (Cert.branch [Cert.move (2, 0) (Cert.leaf), Cert.move (0, 1) (Cert.leaf), Cert.move (0, 1) (Cert.leaf)])]), Cert.move (0, 1) (Cert.branch [Cert.move (2, 1) (Cert.leaf), Cert.move (2, 1) (Cert.leaf), Cert.move (2, 1) (Cert.leaf), Cert.move (2, 2) (Cert.branch [Cert.move (1, 0) (Cert.branch [Cert.leaf]), Cert.move (0, 0) (Cert.leaf), Cert.move (0, 0) (Cert.leaf)]), Cert.move (2, 1) (Cert.leaf)]), Cert.move (0, 2) (Cert.branch [Cert.move (2, 0) (Cert.leaf), Cert.move (2, 0) (Cert.leaf), Cert.move (2, 0) (Cert.leaf), Cert.move (2, 2) (Cert.branch [Cert.move (1, 0) (Cert.branch [Cert.leaf]), Cert.move (0, 0) (Cert.leaf), Cert.move (0, 0) (Cert.leaf)]), Cert.move (2, 0) (Cert.leaf)]), Cert.move (0, 2) (Cert.branch [Cert.move (2, 0) (Cert.leaf), Cert.move (2, 0) (Cert.leaf), Cert.move (2, 0) (Cert.leaf), Cert.move (2, 1) (Cert.branch [Cert.move (0, 1) (Cert.leaf), Cert.move (0, 0) (Cert.branch [Cert.leaf]), Cert.move (0, 1) (Cert.leaf)]), Cert.move (2, 0) (Cert.leaf)])])

def c8cert8 : Cert :=
  Cert.move (1, 1) (Cert.branch [Cert.move (1, 0) (Cert.branch [Cert.move (1, 2) (Cert.leaf), Cert.move (1, 2) (Cert.leaf), Cert.move (0, 1) (Cert.branch [Cert.move (2, 1) (Cert.leaf), Cert.move (2, 2) (Cert.branch [Cert.leaf]), Cert.move (2, 1) (Cert.leaf)]), Cert.move (1, 2) (Cert.leaf), Cert.move (1, 2) (Cert.leaf)]), Cert.move (1, 0) (Cert.branch [Cert.move (1, 2) (Cert.leaf), Cert.move (1, 2) (Cert.leaf), Cert.move (2, 2) (Cert.branch [Cert.move (0, 2) (Cert.branch [Cert.leaf]), Cert.move (0, 0) (Cert.leaf), Cert.move (0, 0) (Cert.leaf)]), Cert.move (1, 2) (Cert.leaf), Cert.move (1, 2) (Cert.leaf)]), Cert.move (0, 1) (Cert.branch [Cert.move (2, 1) (Cert.leaf), Cert.move (2, 1) (Cert.leaf), Cert.move (2, 1) (Cert.leaf), Cert.move (2, 2) (Cert.branch [Cert.move (1, 0) (Cert.branch [Cert.leaf]), Cert.move (0, 0) (Cert.leaf), Cert.move (0, 0) (Cert.leaf)]), Cert.move (2, 1) (Cert.leaf)]), Cert.move (0, 0) (Cert.branch [Cert.move (2, 2) (Cert.leaf), Cert.move (2, 2) (Cert.leaf), Cert.move (2, 2) (Cert.leaf), Cert.move (2, 2) (Cert.leaf), Cert.move (2, 1) (Cert.branch [Cert.move (0, 2) (Cert.branch [Cert.leaf]), Cert.move (0, 1) (Cert.leaf), Cert.move (0, 1) (Cert.leaf)])]), Cert.move (0, 1) (Cert.branch [Cert.move (2, 1) (Cert.leaf), Cert.move (2, 1) (Cert.leaf), Cert.move (2, 1) (Cert.leaf), Cert.move (2, 2) (Cert.branch [Cert.move (1, 0) (Cert.branch [Cert.leaf]), Cert.move (0, 0) (Cert.leaf), Cert.move (0, 0) (Cert.leaf)]), Cert.move (2, 1) (Cert.leaf)]), Cert.move (2, 2) (Cert.branch [Cert.move (1, 0) (Cert.branch [Cert.move (1, 2) (Cert.leaf), Cert.move (1, 2) (Cert.leaf), Cert.move (0, 1) (Cert.branch [Cert.leaf])]), Cert.move (0, 0) (Cert.leaf), Cert.move (0, 0) (Cert.leaf), Cert.move (0, 0) (Cert.leaf), Cert.move (0, 0) (Cert.leaf)]), Cert.move (2, 1) (Cert.branch [Cert.move (0, 1) (Cert.leaf), Cert.move (1, 0) (Cert.branch [Cert.move (1, 2) (Cert.leaf), Cert.move (1, 2) (Cert.leaf), Cert.move (0, 2) (Cert.branch [Cert.leaf])]), Cert.move (0, 1) (Cert.leaf), Cert.move (0, 1) (Cert.leaf), Cert.move (0, 1) (Cert.leaf)])])

def c8cert9 : Cert :=
  Cert.move (1, 1) (Cert.branch [Cert.move (1, 0) (Cert.branch [Cert.move (1, 2) (Cert.leaf), Cert.move (1, 2) (Cert.leaf), Cert.move (0, 2) (Cert.branch [Cert.move (2, 0) (Cert.leaf), Cert.move (2, 2) (Cert.branch [Cert.leaf]), Cert.move (2, 0) (Cert.leaf)]), Cert.move (1, 2) (Cert.leaf), Cert.move (1, 2) (Cert.leaf)]), Cert.move (0, 0) (Cert.branch [Cert.move (2, 2) (Cert.leaf), Cert.move (2, 2) (Cert.leaf), Cert.move (2, 2) (Cert.leaf), Cert.move (2, 2) (Cert.leaf), Cert.move (2, 0) (Cert.branch [Cert.move (1, 0) (Cert.leaf), Cert.move (0, 2) (Cert.leaf), Cert.move (0, 2) (Cert.leaf)])]), Cert.move (1, 0) (Cert.branch [Cert.move (1, 2) (Cert.leaf), Cert.move (1, 2) (Cert.leaf), Cert.move (2, 2) (Cert.branch [Cert.move (0, 1) (Cert.branch [Cert.leaf]), Cert.move (0, 0) (Cert.leaf), Cert.move (0, 0) (Cert.leaf)]), Cert.move (1, 2) (Cert.leaf), Cert.move (1, 2) (Cert.leaf)]), Cert.move (0, 0) (Cert.branch [Cert.move (2, 2) (Cert.leaf), Cert.move (2, 2) (Cert.leaf), Cert.move (2, 2) (Cert.leaf), Cert.move (2, 2) (Cert.leaf), Cert.move (2, 0) (Cert.branch [Cert.move (0, 2) (Cert.leaf), Cert.move (1, 2) (Cert.branch [Cert.leaf]), Cert.move (0, 2) (Cert.leaf)])]), Cert.move (0, 2) (Cert.branch [Cert.move (2, 0) (Cert.leaf), Cert.move (2, 0) (Cert.leaf), Cert.move (2, 0) (Cert.leaf), Cert.move (2, 2) (Cert.branch [Cert.move (1, 0) (Cert.branch [Cert.leaf]), Cert.move (0, 0) (Cert.leaf), Cert.move (0, 0) (Cert.leaf)]), Cert.move (2, 0) (Cert.leaf)]), Cert.move (2, 2) (Cert.branch [Cert.move (1, 0) (Cert.branch [Cert.move (1, 2) (Cert.leaf), Cert.move (1, 2) (Cert.leaf), Cert.move (0, 1) (Cert.branch [Cert.leaf])]), Cert.move (0, 0) (Cert.leaf), Cert.move (0, 0) (Cert.leaf), Cert.move (0, 0) (Cert.leaf), Cert.move (0, 0) (Cert.leaf)]), Cert.move (2, 0) (Cert.branch [Cert.move (0, 2) (Cert.leaf), Cert.move (0, 2) (Cert.leaf), Cert.move (1, 2) (Cert.branch [Cert.move (1, 0) (Cert.leaf), Cert.move (1, 0) (Cert.leaf), Cert.move (0, 0) (Cert.branch [Cert.leaf])]), Cert.move (0, 2) (Cert.leaf), Cert.move (0, 2) (Cert.leaf)])])

def c8cert10 : Cert :=
  Cert.move (1, 1) (Cert.branch [Cert.move (0, 1) (Cert.branch [Cert.move (2, 1) (Cert.leaf), Cert.move (2, 1) (Cert.leaf), Cert.move (2, 1) (Cert.leaf), Cert.move (2, 1) (Cert.leaf), Cert.move (2, 0) (Cert.branch [Cert.move (1, 2) (Cert.branch [Cert.leaf]), Cert.move (0, 2) (Cert.leaf), Cert.move (0, 2) (Cert.leaf)])]), Cert.move (1, 0) (Cert.branch [Cert.move (1, 2) (Cert.leaf), Cert.move (1, 2) (Cert.leaf), Cert.move (0, 2) (Cert.branch [Cert.move (2, 0) (Cert.leaf), Cert.move (2, 1) (Cert.branch [Cert.leaf]), Cert.move (2, 0) (Cert.leaf)]), Cert.move (1, 2) (Cert.leaf), Cert.move (1, 2) (Cert.leaf)]), Cert.move (1, 2) (Cert.branch [Cert.move (1, 0) (Cert.leaf), Cert.move (1, 0) (Cert.leaf), Cert.move (0, 1) (Cert.branch [Cert.move (2, 1) (Cert.leaf), Cert.move (2, 1) (Cert.leaf), Cert.move (2, 0) (Cert.branch [Cert.leaf])]), Cert.move (1, 0) (Cert.leaf), Cert.move (1, 0) (Cert.leaf)]), Cert.move (0, 1) (Cert.branch [Cert.move (2, 1) (Cert.leaf), Cert.move (2, 1) (Cert.leaf), Cert.move (2, 1) (Cert.leaf), Cert.move (2, 1) (Cert.leaf), Cert.move (2, 0) (Cert.branch [Cert.move (0, 2) (Cert.leaf), Cert.move (1, 2) (Cert.branch [Cert.leaf]), Cert.move (0, 2) (Cert.leaf)])]), Cert.move (0, 2) (Cert.branch [Cert.move (2, 0) (Cert.leaf), Cert.move (2, 0) (Cert.leaf), Cert.move (2, 0) (Cert.leaf), Cert.move (2, 1) (Cert.branch [Cert.move (0, 1) (Cert.leaf), Cert.move (0, 0) (Cert.branch [Cert.leaf]), Cert.move (0, 1) (Cert.leaf)]), Cert.move (2, 0) (Cert.leaf)]), Cert.move (2, 1) (Cert.branch [Cert.move (0, 1) (Cert.leaf), Cert.move (1, 0) (Cert.branch [Cert.move (1, 2) (Cert.leaf), Cert.move (1, 2) (Cert.leaf), Cert.move (0, 2) (Cert.branch [Cert.leaf])]), Cert.move (0, 1) (Cert.leaf), Cert.move (0, 1) (Cert.leaf), Cert.move (0, 1) (Cert.leaf)]), Cert.move (2, 0) (Cert.branch [Cert.move (0, 2) (Cert.leaf), Cert.move (0, 2) (Cert.leaf), Cert.move (1, 2) (Cert.branch [Cert.move (1, 0) (Cert.leaf), Cert.move (1, 0) (Cert.leaf), Cert.move (0, 0) (Cert.branch [Cert.leaf])]), Cert.move (0, 2) (Cert.leaf), Cert.move (0, 2) (Cert.leaf)])])

def c8cert11 : Cert :=
  Cert.move (0, 1) (Cert.branch [Cert.move (2, 0) (Cert.branch [Cert.move (1, 2) (Cert.branch [Cert.move (2, 2) (Cert.leaf), Cert.move (2, 1) (Cert.leaf)]), Cert.move (1, 0) (Cert.leaf), Cert.move (1, 0) (Cert.leaf), Cert.move (1, 0) (Cert.leaf)]), Cert.move (0, 2) (Cert.leaf), Cert.move (0, 2) (Cert.leaf), Cert.move (0, 2) (Cert.leaf), Cert.move (0, 2) (Cert.leaf), Cert.move (0, 2) (Cert.leaf)])

def c8cert12 : Cert :=
  Cert.branch [Cert.move (0, 2) (Cert.branch [Cert.move (2, 0) (Cert.leaf), Cert.move (2, 0) (Cert.leaf), Cert.move (1, 0) (Cert.branch [Cert.move (2, 1) (Cert.branch [Cert.leaf]), Cert.move (1, 2) (Cert.leaf), Cert.move (1, 2) (Cert.leaf)]), Cert.move (2, 0) (Cert.leaf), Cert.move (2, 0) (Cert.leaf)]), Cert.move (0, 1) (Cert.branch [Cert.move (2, 1) (Cert.leaf), Cert.move (2, 1) (Cert.leaf), Cert.move (2, 1) (Cert.leaf), Cert.move (1, 0) (Cert.branch [Cert.move (2, 2) (Cert.branch [Cert.leaf]), Cert.move (1, 2) (Cert.leaf), Cert.move (1, 2) (Cert.leaf)]), Cert.move (2, 1) (Cert.leaf)]), Cert.move (2, 0) (Cert.branch [Cert.move (0, 2) (Cert.leaf), Cert.move (0, 1) (Cert.branch [Cert.move (2, 1) (Cert.leaf), Cert.move (1, 2) (Cert.branch [Cert.leaf]), Cert.move (2, 1) (Cert.leaf)]), Cert.move (0, 2) (Cert.leaf), Cert.move (0, 2) (Cert.leaf), Cert.move (0, 2) (Cert.leaf)]), Cert.move (0, 1) (Cert.branch [Cert.move (2, 1) (Cert.leaf), Cert.move (2, 1) (Cert.leaf), Cert.move (2, 1) (Cert.leaf), Cert.move (2, 0) (Cert.branch [Cert.move (2, 2) (Cert.branch [Cert.leaf]), Cert.move (0, 2) (Cert.leaf), Cert.move (0, 2) (Cert.leaf)]), Cert.move (2, 1) (Cert.leaf)]), Cert.move (1, 0) (Cert.branch [Cert.move (1, 2) (Cert.leaf), Cert.move (1, 2) (Cert.leaf), Cert.move (0, 1) (Cert.branch [Cert.move (2, 1) (Cert.leaf), Cert.move (2, 2) (Cert.branch [Cert.leaf]), Cert.move (2, 1) (Cert.leaf)]), Cert.move (1, 2) (Cert.leaf), Cert.move (1, 2) (Cert.leaf)]), Cert.move (1, 0) (Cert.branch [Cert.move (1, 2) (Cert.leaf), Cert.move (1, 2) (Cert.leaf), Cert.move (0, 2) (Cert.branch [Cert.move (2, 0) (Cert.leaf), Cert.move (2, 2) (Cert.branch [Cert.leaf]), Cert.move (2, 0) (Cert.leaf)]), Cert.move (1, 2) (Cert.leaf), Cert.move (1, 2) (Cert.leaf)]), Cert.move (0, 1) (Cert.branch [Cert.move (2, 1) (Cert.leaf), Cert.move (2, 1) (Cert.leaf), Cert.move (2, 1) (Cert.leaf), Cert.move (2, 1) (Cert.leaf), Cert.move (2, 0) (Cert.branch [Cert.move (1, 2) (Cert.branch [Cert.leaf]), Cert.move (0, 2) (Cert.leaf), Cert.move (0, 2) (Cert.leaf)])])]

def c8cert13 : Cert :=
  Cert.move (1, 0) (Cert.branch [Cert.move (2, 0) (Cert.leaf), Cert.move (2, 0) (Cert.leaf), Cert.move (2, 0) (Cert.leaf), Cert.move (1, 1) (Cert.branch [Cert.move (1, 2) (Cert.leaf), Cert.move (2, 2) (Cert.leaf), Cert.move (1, 2) (Cert.leaf), Cert.move (1, 2) (Cert.leaf)]), Cert.move (2, 0) (Cert.leaf), Cert.move (2, 0) (Cert.leaf)])

def c8cert14 : Cert :=
  Cert.move (1, 0) (Cert.branch [Cert.move (2, 0) (Cert.leaf), Cert.move (2, 0) (Cert.leaf), Cert.move (2, 0) (Cert.leaf), Cert.move (1, 1) (Cert.branch [Cert.move (1, 2) (Cert.leaf), Cert.move (2, 2) (Cert.leaf), Cert.move (1, 2) (Cert.leaf), Cert.move (1, 2) (Cert.leaf)]), Cert.move (2, 0) (Cert.leaf), Cert.move (2, 0) (Cert.leaf)])

def c8cert15 : Cert :=
  Cert.move (0, 1) (Cert.branch [Cert.move (1, 1) (Cert.branch [Cert.move (2, 1) (Cert.leaf), Cert.move (2, 1) (Cert.leaf), Cert.move (2, 2) (Cert.leaf), Cert.move (2, 1) (Cert.leaf)]), Cert.move (0, 2) (Cert.leaf), Cert.move (0, 2) (Cert.leaf), Cert.move (0, 2) (Cert.leaf), Cert.move (0, 2) (Cert.leaf), Cert.move (0, 2) (Cert.leaf)])

def c8cert16 : Cert :=
  Cert.move (0, 2) (Cert.branch [Cert.move (1, 1) (Cert.branch [Cert.move (2, 0) (Cert.leaf), Cert.move (2, 2) (Cert.leaf), Cert.move (2, 0) (Cert.leaf), Cert.move (2, 0) (Cert.leaf)]), Cert.move (0, 1) (Cert.leaf), Cert.move (0, 1) (Cert.leaf), Cert.move (0, 1) (Cert.leaf), Cert.move (0, 1) (Cert.leaf), Cert.move (0, 1) (Cert.leaf)])

def c8cert17 : Cert :=
  Cert.move (0, 1) (Cert.branch [Cert.move (1, 1) (Cert.branch [Cert.move (2, 1) (Cert.leaf), Cert.move (2, 1) (Cert.leaf), Cert.move (2, 2) (Cert.leaf), Cert.move (2, 1) (Cert.leaf)]), Cert.move (0, 2) (Cert.leaf), Cert.move (0, 2) (Cert.leaf), Cert.move (0, 2) (Cert.leaf), Cert.move (0, 2) (Cert.leaf), Cert.move (0, 2) (Cert.leaf)])

def c8cert18 : Cert :=
  Cert.move (0, 2) (Cert.branch [Cert.move (1, 1) (Cert.branch [Cert.move (2, 0) (Cert.leaf), Cert.move (2, 0) (Cert.leaf), Cert.move (2, 2) (Cert.leaf), Cert.move (2, 0) (Cert.leaf)]), Cert.move (0, 1) (Cert.leaf), Cert.move (0, 1) (Cert.leaf), Cert.move (0, 1) (Cert.leaf), Cert.move (0, 1) (Cert.leaf), Cert.move (0, 1) (Cert.leaf)])

def c8cert19 : Cert :=
  Cert.move (0, 2) (Cert.branch [Cert.move (2, 0) (Cert.branch [Cert.move (1, 1) (Cert.leaf), Cert.move (1, 0) (Cert.leaf), Cert.move (1, 0) (Cert.leaf), Cert.move (1, 0) (Cert.leaf)]), Cert.move (0, 1) (Cert.leaf), Cert.move (0, 1) (Cert.leaf), Cert.move (0, 1) (Cert.leaf), Cert.move (0, 1) (Cert.leaf), Cert.move (0, 1) (Cert.leaf)])

def c8cert20 : Cert :=
  Cert.branch [Cert.move (2, 0) (Cert.branch [Cert.move (1, 2) (Cert.branch [Cert.move (2, 2) (Cert.leaf), Cert.move (2, 1) (Cert.leaf)]), Cert.move (1, 0) (Cert.leaf), Cert.move (1, 0) (Cert.leaf), Cert.move (1, 0) (Cert.leaf)]), Cert.move (0, 2) (Cert.leaf), Cert.move (0, 2) (Cert.leaf), Cert.move (0, 2) (Cert.leaf), Cert.move (0, 2) (Cert.leaf), Cert.move (0, 2) (Cert.leaf)]

def c8cert21 : Cert :=
  Cert.move (0, 2) (Cert.branch [Cert.move (2, 0) (Cert.leaf), Cert.move (2, 0) (Cert.leaf), Cert.move (1, 0) (Cert.branch [Cert.move (2, 1) (Cert.branch [Cert.leaf]), Cert.move (1, 2) (Cert.leaf), Cert.move (1, 2) (Cert.leaf)]), Cert.move (2, 0) (Cert.leaf), Cert.move (2, 0) (Cert.leaf)])

def c8cert22 : Cert :=
  Cert.move (0, 1) (Cert.branch [Cert.move (2, 1) (Cert.leaf), Cert.move (2, 1) (Cert.leaf), Cert.move (2, 1) (Cert.leaf), Cert.move (1, 0) (Cert.branch [Cert.move (2, 2) (Cert.branch [Cert.leaf]), Cert.move (1, 2) (Cert.leaf), Cert.move (1, 2) (Cert.leaf)]), Cert.move (2, 1) (Cert.leaf)])

def c8cert23 : Cert :=
  Cert.move (2, 0) (Cert.branch [Cert.move (0, 2) (Cert.leaf), Cert.move (0, 1) (Cert.branch [Cert.move (2, 1) (Cert.leaf), Cert.move (1, 2) (Cert.branch [Cert.leaf]), Cert.move (2, 1) (Cert.leaf)]), Cert.move (0, 2) (Cert.leaf), Cert.move (0, 2) (Cert.leaf), Cert.move (0, 2) (Cert.leaf)])

def c8cert24 : Cert :=
  Cert.move (0, 1) (Cert.branch [Cert.move (2, 1) (Cert.leaf), Cert.move (2, 1) (Cert.leaf), Cert.move (2, 1) (Cert.leaf), Cert.move (2, 0) (Cert.branch [Cert.move (2, 2) (Cert.branch [Cert.leaf]), Cert.move (0, 2) (Cert.leaf), Cert.move (0, 2) (Cert.leaf)]), Cert.move (2, 1) (Cert.leaf)])

def c8cert25 : Cert :=
  Cert.move (1, 0) (Cert.branch [Cert.move (1, 2) (Cert.leaf), Cert.move (1, 2) (Cert.leaf), Cert.move (0, 1) (Cert.branch [Cert.move (2, 1) (Cert.leaf), Cert.move (2, 2) (Cert.branch [Cert.leaf]), Cert.move (2, 1) (Cert.leaf)]), Cert.move (1, 2) (Cert.leaf), Cert.move (1, 2) (Cert.leaf)])

def c8cert26 : Cert :=
  Cert.move (1, 0) (Cert.branch [Cert.move (1, 2) (Cert.leaf), Cert.move (1, 2) (Cert.leaf), Cert.move (0, 2) (Cert.branch [Cert.move (2, 0) (Cert.leaf), Cert.move (2, 2) (Cert.branch [Cert.leaf]), Cert.move (2, 0) (Cert.leaf)]), Cert.move (1, 2) (Cert.leaf), Cert.move (1, 2) (Cert.leaf)])

def c8cert27 : Cert :=
  Cert.move (0, 1) (Cert.branch [Cert.move (2, 1) (Cert.leaf), Cert.move (2, 1) (Cert.leaf), Cert.move (2, 1) (Cert.leaf), Cert.move (2, 1) (Cert.leaf), Cert.move (2, 0) (Cert.branch [Cert.move (1, 2) (Cert.branch [Cert.leaf]), Cert.move (0, 2) (Cert.leaf), Cert.move (0, 2) (Cert.leaf)])])

def c8cert28 : Cert :=
  Cert.move (2, 0) (Cert.branch [Cert.move (1, 2) (Cert.branch [Cert.move (2, 2) (Cert.leaf), Cert.move (2, 1) (Cert.leaf)]), Cert.move (1, 0) (Cert.leaf), Cert.move (1, 0) (Cert.leaf), Cert.move (1, 0) (Cert.leaf)])

def c8cert29 : Cert :=
  Cert.branch [Cert.move (2, 0) (Cert.leaf), Cert.move (2, 0) (Cert.leaf), Cert.move (1, 0) (Cert.branch [Cert.move (2, 1) (Cert.branch [Cert.leaf]), Cert.move (1, 2) (Cert.leaf), Cert.move (1, 2) (Cert.leaf)]), Cert.move (2, 0) (Cert.leaf), Cert.move (2, 0) (Cert.leaf)]

def c8cert30 : Cert :=
  Cert.move (0, 2) (Cert.leaf)

def c8cert31 : Cert :=
  Cert.move (0, 2) (Cert.leaf)

def c8cert32 : Cert :=
  Cert.move (0, 2) (Cert.leaf)

def c8cert33 : Cert :=
  Cert.move (0, 2) (Cert.leaf)

def c8cert34 : Cert :=
  Cert.move (0, 2) (Cert.leaf)

def c8cert35 : Cert :=
  Cert.branch [Cert.move (1, 2) (Cert.branch [Cert.move (2, 2) (Cert.leaf), Cert.move (2, 1) (Cert.leaf)]), Cert.move (1, 0) (Cert.leaf), Cert.move (1, 0) (Cert.leaf), Cert.move (1, 0) (Cert.leaf)]

def c8cert36 : Cert :=
  Cert.move (1, 0) (Cert.branch [Cert.move (2, 1) (Cert.branch [Cert.leaf]), Cert.move (1, 2) (Cert.leaf), Cert.move (1, 2) (Cert.leaf)])

def c8cert37 : Cert :=
  Cert.move (2, 0) (Cert.leaf)

def c8cert38 : Cert :=
  Cert.move (2, 0) (Cert.leaf)

def c8cert39 : Cert :=
  Cert.move (2, 0) (Cert.leaf)

def c8cert40 : Cert :=
  Cert.move (2, 0) (Cert.leaf)

def c8cert41 : Cert :=
  Cert.move (1, 2) (Cert.branch [Cert.move (2, 2) (Cert.leaf), Cert.move (2, 1) (Cert.leaf)])

def c8cert42 : Cert :=
  Cert.branch [Cert.move (2, 1) (Cert.branch [Cert.leaf]), Cert.move (1, 2) (Cert.leaf), Cert.move (1, 2) (Cert.leaf)]

def c8cert43 : Cert :=
  Cert.move (1, 0) (Cert.leaf)

def c8cert44 : Cert :=
  Cert.move (1, 0) (Cert.leaf)

def c8cert45 : Cert :=
  Cert.move (1, 0) (Cert.leaf)

def c8cert46 : Cert :=
  Cert.branch [Cert.move (2, 2) (Cert.leaf), Cert.move (2, 1) (Cert.leaf)]

def c8cert47 : Cert :=
  Cert.move (2, 1) (Cert.branch [Cert.leaf])

def c8cert48 : Cert :=
  Cert.move (1, 2) (Cert.leaf)

def c8cert49 : Cert :=
  Cert.move (1, 2) (Cert.leaf)

def c8cert50 : Cert :=
  Cert.move (2, 2) (Cert.leaf)

def c8cert51 : Cert :=
  Cert.branch [Cert.leaf]

def c8cert52 : Cert :=
  Cert.move (2, 1) (Cert.leaf)

def c8cert53 : Cert :=
  Cert.leaf

def c8cert54 : Cert :=
  Cert.leaf


lemma max_value_zero (b : Board) : max_value 0 b = if terminal b then utility b else 0 := by
  rw [max_value]

lemma max_value_succ (f : Nat) (b : Board) :
    max_value (f + 1) b = if terminal b then utility b
      else (actions b).foldl (fun v a => max v (min_value f (place b a))) negInf := by
  rw [max_value]

lemma allCells_nodup : allCells.Nodup := by decide

lemma mem_allCells : ∀ m : Move, m ∈ allCells := by decide

lemma mem_actions {b : Board} {m : Move} : m ∈ actions b ↔ cell b m.1 m.2 = none := by
  unfold actions
  rw [List.mem_filter]
  simp [mem_allCells]

lemma actions_nodup (b : Board) : (actions b).Nodup :=
  allCells_nodup.filter _

lemma cell_setCell_self (b : Board) (i j : Fin 3) (c : Cell) :
    cell (setCell b i j c) i j = c := by
  fin_cases i <;> fin_cases j <;> rfl

lemma cell_setCell_other (b : Board) (i j i2 j2 : Fin 3) (c : Cell) (h : (i2, j2) ≠ (i, j)) :
    cell (setCell b i j c) i2 j2 = cell b i2 j2 := by
  fin_cases i <;> fin_cases j <;> fin_cases i2 <;> fin_cases j2 <;>
    first
      | rfl
      | exact absurd rfl h

lemma foldl_max_le {α : Type} (f : α → Int) (u : Int) (l : List α) :
    ∀ init : Int, init ≤ u → (∀ x ∈ l, f x ≤ u) →
      l.foldl (fun v a => max v (f a)) init ≤ u := by
  induction l with
  | nil => intro init h _; simpa using h
  | cons a t ih =>
    intro init h hl
    simp only [List.foldl_cons]
    exact ih _ (max_le h (hl a (by simp))) (fun x hx => hl x (by simp [hx]))

lemma le_foldl_max {α : Type} (f : α → Int) (l : List α) :
    ∀ init : Int, init ≤ l.foldl (fun v a => max v (f a)) init := by
  induction l with
  | nil => intro init; simp
  | cons a t ih =>
    intro init
    simp only [List.foldl_cons]
    exact le_trans (le_max_left _ _) (ih _)

lemma mem_le_foldl_max {α : Type} (f : α → Int) (l : List α) :
    ∀ init : Int, ∀ x ∈ l, f x ≤ l.foldl (fun v a => max v (f a)) init := by
  induction l with
  | nil => intro init x hx; simp at hx
  | cons a t ih =>
    intro init x hx
    rcases List.mem_cons.mp hx with h | h
    · subst h
      simp only [List.foldl_cons]
      exact le_trans (le_max_right _ _) (le_foldl_max f t _)
    · simp only [List.foldl_cons]
      exact ih _ x h

lemma le_foldl_min {α : Type} (f : α → Int) (u : Int) (l : List α) :
    ∀ init : Int, u ≤ init → (∀ x ∈ l, u ≤ f x) →
      u ≤ l.foldl (fun v a => min v (f a)) init := by
  induction l with
  | nil => intro init h _; simpa using h
  | cons a t ih =>
    intro init h hl
    simp only [List.foldl_cons]
    exact ih _ (le_min h (hl a (by simp))) (fun x hx => hl x (by simp [hx]))

lemma foldl_min_le_init {α : Type} (f : α → Int) (l : List α) :
    ∀ init : Int, l.foldl (fun v a => min v (f a)) init ≤ init := by
  induction l with
  | nil => intro init; simp
  | cons a t ih =>
    intro init
    simp only [List.foldl_cons]
    exact le_trans (ih _) (min_le_left _ _)

lemma foldl_min_le_mem {α : Type} (f : α → Int) (l : List α) :
    ∀ init : Int, ∀ x ∈ l, l.foldl (fun v a => min v (f a)) init ≤ f x := by
  induction l with
  | nil => intro init x hx; simp at hx
  | cons a t ih =>
    intro init x hx
    rcases List.mem_cons.mp hx with h | h
    · subst h
      simp only [List.foldl_cons]
      exact le_trans (foldl_min_le_init f t _) (min_le_right _ _)
    · simp only [List.foldl_cons]
      exact ih _ x h

lemma min_value_zero (b : Board) : min_value 0 b = if terminal b then utility b else 0 := by
  rw [min_value]

lemma min_value_succ (f : Nat) (b : Board) :
    min_value (f + 1) b = if terminal b then utility b
      else (actions b).foldl (fun v a => min v (max_value f (place b a))) posInf := by
  rw [min_value]

lemma utility_range (b : Board) : -1 ≤ utility b ∧ utility b ≤ 1 := by
  unfold utility
  rcases winner b with _ | p
  · exact ⟨by norm_num, by norm_num⟩
  · cases p <;> exact ⟨by norm_num, by norm_num⟩

lemma empty_cell_of_not_terminal {b : Board} (h : terminal b = false) :
    ∃ i j, cell b i j = none := by
  unfold terminal at h
  split at h
  · exact absurd h (by simp)
  · simp only [Bool.not_eq_false', List.any_eq_true] at h
    obtain ⟨r, hr, c, hc, hcn⟩ := h
    simp only [rows, List.mem_map] at hr
    obtain ⟨i, _, hri⟩ := hr
    subst hri
    simp only [rowList, List.mem_cons, List.not_mem_nil, or_false] at hc
    simp only [decide_eq_true_eq] at hcn
    rcases hc with h0 | h1 | h2
    · exact ⟨i, 0, h0 ▸ hcn⟩
    · exact ⟨i, 1, h1 ▸ hcn⟩
    · exact ⟨i, 2, h2 ▸ hcn⟩

lemma actions_ne_nil_of_not_terminal {b : Board} (h : terminal b = false) :
    actions b ≠ [] := by
  obtain ⟨i, j, hij⟩ := empty_cell_of_not_terminal h
  exact List.ne_nil_of_mem (mem_actions (m := (i, j)).mpr hij)

lemma value_range : ∀ (fuel : Nat) (b : Board),
    (-1 ≤ max_value fuel b ∧ max_value fuel b ≤ 1) ∧
    (-1 ≤ min_value fuel b ∧ min_value fuel b ≤ 1) := by
  intro fuel
  induction fuel with
  | zero =>
    intro b
    rw [max_value_zero, min_value_zero]
    by_cases h : terminal b = true
    · rw [if_pos h]
      exact ⟨utility_range b, utility_range b⟩
    · rw [if_neg h]
      norm_num
  | succ f ih =>
    intro b
    rw [max_value_succ, min_value_succ]
    by_cases h : terminal b = true
    · rw [if_pos h, if_pos h]
      exact ⟨utility_range b, utility_range b⟩
    · rw [if_neg h, if_neg h]
      rw [Bool.not_eq_true] at h
      obtain ⟨a, ha⟩ := List.exists_mem_of_ne_nil _ (actions_ne_nil_of_not_terminal h)
      constructor
      · constructor
        · exact le_trans (ih (place b a)).2.1 (mem_le_foldl_max _ _ _ a ha)
        · exact foldl_max_le _ 1 _ _ (by norm_num [negInf]) (fun x _ => (ih (place b x)).2.2)
      · constructor
        · exact le_foldl_min _ (-1) _ _ (by norm_num [posInf]) (fun x _ => (ih (place b x)).1.1)
        · exact le_trans (foldl_min_le_mem _ _ _ a ha) (ih (place b a)).1.2

lemma pickMax_cons {α : Type} (f : α → Int) (a : α) (t : List α) (s : Option α × Int) :
    pickMax f (a :: t) s = pickMax f t (if s.2 < f a then (some a, f a) else s) := rfl

lemma pickMin_cons {α : Type} (f : α → Int) (a : α) (t : List α) (s : Option α × Int) :
    pickMin f (a :: t) s = pickMin f t (if f a < s.2 then (some a, f a) else s) := rfl

lemma pickMax_argmax {α : Type} (f : α → Int) (l : List α) :
    ∀ a0 : α, ∃ c, pickMax f l (some a0, f a0) = pickMax f [] (some c, f c) ∧
      (c = a0 ∨ c ∈ l) ∧ f a0 ≤ f c ∧ ∀ x ∈ l, f x ≤ f c := by
  induction l with
  | nil => intro a0; exact ⟨a0, rfl, Or.inl rfl, le_refl _, by simp⟩
  | cons a t ih =>
    intro a0
    rw [pickMax_cons]
    by_cases h : f a0 < f a
    · rw [if_pos h]
      obtain ⟨c, hc, hmem, hle, hall⟩ := ih a
      refine ⟨c, hc, ?_, le_of_lt (lt_of_lt_of_le h hle), ?_⟩
      · rcases hmem with h1 | h1
        · exact Or.inr (h1 ▸ List.mem_cons_self a t)
        · exact Or.inr (List.mem_cons_of_mem _ h1)
      · intro x hx
        rcases List.mem_cons.mp hx with h1 | h1
        · exact h1 ▸ hle
        · exact hall x h1
    · rw [if_neg h]
      obtain ⟨c, hc, hmem, hle, hall⟩ := ih a0
      refine ⟨c, hc, ?_, hle, ?_⟩
      · rcases hmem with h1 | h1
        · exact Or.inl h1
        · exact Or.inr (List.mem_cons_of_mem _ h1)
      · intro x hx
        rcases List.mem_cons.mp hx with h1 | h1
        · exact h1 ▸ le_trans (not_lt.mp h) hle
        · exact hall x h1

lemma pickMin_argmin {α : Type} (f : α → Int) (l : List α) :
    ∀ a0 : α, ∃ c, pickMin f l (some a0, f a0) = pickMin f [] (some c, f c) ∧
      (c = a0 ∨ c ∈ l) ∧ f c ≤ f a0 ∧ ∀ x ∈ l, f c ≤ f x := by
  induction l with
  | nil => intro a0; exact ⟨a0, rfl, Or.inl rfl, le_refl _, by simp⟩
  | cons a t ih =>
    intro a0
    rw [pickMin_cons]
    by_cases h : f a < f a0
    · rw [if_pos h]
      obtain ⟨c, hc, hmem, hle, hall⟩ := ih a
      refine ⟨c, hc, ?_, le_of_lt (lt_of_le_of_lt hle h), ?_⟩
      · rcases hmem with h1 | h1
        · exact Or.inr (h1 ▸ List.mem_cons_self a t)
        · exact Or.inr (List.mem_cons_of_mem _ h1)
      · intro x hx
        rcases List.mem_cons.mp hx with h1 | h1
        · exact h1 ▸ hle
        · exact hall x h1
    · rw [if_neg h]
      obtain ⟨c, hc, hmem, hle, hall⟩ := ih a0
      refine ⟨c, hc, ?_, hle, ?_⟩
      · rcases hmem with h1 | h1
        · exact Or.inl h1
        · exact Or.inr (List.mem_cons_of_mem _ h1)
      · intro x hx
        rcases List.mem_cons.mp hx with h1 | h1
        · exact h1 ▸ le_trans hle (not_lt.mp h)
        · exact hall x h1

lemma pickMax_lt_invariant {α : Type} (f : α → Int) (w : Int) (l : List α)
    (hl : ∀ x ∈ l, f x < w) : ∀ s : Option α × Int, s.2 < w → (pickMax f l s).2 < w := by
  induction l with
  | nil => intro s hs; exact hs
  | cons a t ih =>
    intro s hs
    rw [pickMax_cons]
    by_cases h : s.2 < f a
    · rw [if_pos h]
      exact ih (fun x hx => hl x (List.mem_cons_of_mem _ hx)) _ (hl a (List.mem_cons_self a t))
    · rw [if_neg h]
      exact ih (fun x hx => hl x (List.mem_cons_of_mem _ hx)) _ hs

lemma pickMax_no_improve {α : Type} (f : α → Int) (l : List α) (m : α)
    (hl : ∀ x ∈ l, f x ≤ f m) : pickMax f l (some m, f m) = (some m, f m) := by
  induction l with
  | nil => rfl
  | cons a t ih =>
    rw [pickMax_cons, if_neg (not_lt.mpr (hl a (List.mem_cons_self a t)))]
    exact ih (fun x hx => hl x (List.mem_cons_of_mem _ hx))

lemma pickMax_first {α : Type} (f : α → Int) (l1 l2 : List α) (m : α)
    (h1 : ∀ x ∈ l1, f x < f m) (h2 : ∀ x ∈ l2, f x ≤ f m) :
    ∀ s : Option α × Int, s.2 < f m →
      pickMax f (l1 ++ m :: l2) s = (some m, f m) := by
  induction l1 with
  | nil =>
    intro s hs
    rw [List.nil_append, pickMax_cons, if_pos hs]
    exact pickMax_no_improve f l2 m h2
  | cons a t ih =>
    intro s hs
    rw [List.cons_append, pickMax_cons]
    by_cases h : s.2 < f a
    · rw [if_pos h]
      exact ih (fun x hx => h1 x (List.mem_cons_of_mem _ hx)) _ (h1 a (List.mem_cons_self a t))
    · rw [if_neg h]
      exact ih (fun x hx => h1 x (List.mem_cons_of_mem _ hx)) _ hs

lemma pickMin_gt_invariant {α : Type} (f : α → Int) (w : Int) (l : List α)
    (hl : ∀ x ∈ l, w < f x) : ∀ s : Option α × Int, w < s.2 → w < (pickMin f l s).2 := by
  induction l with
  | nil => intro s hs; exact hs
  | cons a t ih =>
    intro s hs
    rw [pickMin_cons]
    by_cases h : f a < s.2
    · rw [if_pos h]
      exact ih (fun x hx => hl x (List.mem_cons_of_mem _ hx)) _ (hl a (List.mem_cons_self a t))
    · rw [if_neg h]
      exact ih (fun x hx => hl x (List.mem_cons_of_mem _ hx)) _ hs

lemma pickMin_no_improve {α : Type} (f : α → Int) (l : List α) (m : α)
    (hl : ∀ x ∈ l, f m ≤ f x) : pickMin f l (some m, f m) = (some m, f m) := by
  induction l with
  | nil => rfl
  | cons a t ih =>
    rw [pickMin_cons, if_neg (not_lt.mpr (hl a (List.mem_cons_self a t)))]
    exact ih (fun x hx => hl x (List.mem_cons_of_mem _ hx))

lemma pickMin_first {α : Type} (f : α → Int) (l1 l2 : List α) (m : α)
    (h1 : ∀ x ∈ l1, f m < f x) (h2 : ∀ x ∈ l2, f m ≤ f x) :
    ∀ s : Option α × Int, f m < s.2 →
      pickMin f (l1 ++ m :: l2) s = (some m, f m) := by
  induction l1 with
  | nil =>
    intro s hs
    rw [List.nil_append, pickMin_cons, if_pos hs]
    exact pickMin_no_improve f l2 m h2
  | cons a t ih =>
    intro s hs
    rw [List.cons_append, pickMin_cons]
    by_cases h : f a < s.2
    · rw [if_pos h]
      exact ih (fun x hx => h1 x (List.mem_cons_of_mem _ hx)) _ (h1 a (List.mem_cons_self a t))
    · rw [if_neg h]
      exact ih (fun x hx => h1 x (List.mem_cons_of_mem _ hx)) _ hs

lemma pickMax_total {α : Type} (f : α → Int) (a : α) (t : List α)
    (hgt : ∀ x ∈ a :: t, negInf < f x) :
    ∃ c, (pickMax f (a :: t) (none, negInf)).1 = some c ∧ c ∈ a :: t ∧
      ∀ x ∈ a :: t, f x ≤ f c := by
  rw [pickMax_cons, if_pos (hgt a (List.mem_cons_self a t))]
  obtain ⟨c, hc, hmem, hle, hall⟩ := pickMax_argmax f t a
  refine ⟨c, by rw [hc]; rfl, ?_, ?_⟩
  · rcases hmem with h | h
    · exact h ▸ List.mem_cons_self a t
    · exact List.mem_cons_of_mem _ h
  · intro x hx
    rcases List.mem_cons.mp hx with h | h
    · exact h ▸ hle
    · exact hall x h

lemma pickMin_total {α : Type} (f : α → Int) (a : α) (t : List α)
    (hgt : ∀ x ∈ a :: t, f x < posInf) :
    ∃ c, (pickMin f (a :: t) (none, posInf)).1 = some c ∧ c ∈ a :: t ∧
      ∀ x ∈ a :: t, f c ≤ f x := by
  rw [pickMin_cons, if_pos (hgt a (List.mem_cons_self a t))]
  obtain ⟨c, hc, hmem, hle, hall⟩ := pickMin_argmin f t a
  refine ⟨c, by rw [hc]; rfl, ?_, ?_⟩
  · rcases hmem with h | h
    · exact h ▸ List.mem_cons_self a t
    · exact List.mem_cons_of_mem _ h
  · intro x hx
    rcases List.mem_cons.mp hx with h | h
    · exact h ▸ hle
    · exact hall x h

lemma minimax_eq_pickMax {b : Board} (hterm : ¬ terminal b = true) (hp : player b = Player.X) :
    minimax b = (pickMax (fun a => min_value 9 (place b a)) (actions b) (none, negInf)).1 := by
  unfold minimax
  rw [if_neg hterm, if_pos hp]
  rfl

lemma minimax_eq_pickMin {b : Board} (hterm : ¬ terminal b = true) (hp : player b = Player.O) :
    minimax b = (pickMin (fun a => max_value 9 (place b a)) (actions b) (none, posInf)).1 := by
  unfold minimax
  rw [if_neg hterm, if_neg (by rw [hp]; intro hc; exact Player.noConfusion hc)]
  rfl

lemma min_value_gt_negInf (f : Nat) (b : Board) : negInf < min_value f b := by
  have := (value_range f b).2.1
  unfold negInf
  omega

lemma max_value_lt_posInf (f : Nat) (b : Board) : max_value f b < posInf := by
  have := (value_range f b).1.2
  unfold posInf
  omega

/-- Claim C3: minimax returns none exactly on terminal boards; on a
non-terminal board the argmax loop starts from the -inf sentinel, every value
strictly exceeds it, so some move is always selected. -/
theorem minimax_none_iff_terminal (b : Board) : minimax b = none ↔ terminal b = true := by
  by_cases hterm : terminal b = true
  · rw [minimax, if_pos hterm]
    simp [hterm]
  · have hterm2 : terminal b = false := by rwa [Bool.not_eq_true] at hterm
    obtain ⟨a, t, hat⟩ := List.exists_cons_of_ne_nil (actions_ne_nil_of_not_terminal hterm2)
    constructor
    · intro h
      exfalso
      rcases hp : player b with _ | _
      · rw [minimax_eq_pickMax hterm hp, hat] at h
        obtain ⟨c, hc, _, _⟩ :=
          pickMax_total (fun a => min_value 9 (place b a)) a t
            (fun x _ => min_value_gt_negInf 9 (place b x))
        rw [hc] at h
        exact Option.noConfusion h
      · rw [minimax_eq_pickMin hterm hp, hat] at h
        obtain ⟨c, hc, _, _⟩ :=
          pickMin_total (fun a => max_value 9 (place b a)) a t
            (fun x _ => max_value_lt_posInf 9 (place b x))
        rw [hc] at h
        exact Option.noConfusion h
    · intro h
      exact absurd h hterm

/-- Claim C1: on every non-terminal board minimax returns a legal move whose
backed-up value is optimal for the side to move: for X it maximises
min_value of the successor over all legal moves, for O it minimises
max_value of the successor. -/
theorem minimax_optimal (b : Board) (h : terminal b = false) :
    ∃ a, minimax b = some a ∧ a ∈ actions b ∧
      (player b = Player.X →
        ∀ m ∈ actions b, min_value 9 (place b m) ≤ min_value 9 (place b a)) ∧
      (player b = Player.O →
        ∀ m ∈ actions b, max_value 9 (place b a) ≤ max_value 9 (place b m)) := by
  have hterm : ¬ terminal b = true := by rw [h]; intro hc; exact Bool.noConfusion hc
  obtain ⟨a0, t, hat⟩ := List.exists_cons_of_ne_nil (actions_ne_nil_of_not_terminal h)
  rcases hp : player b with _ | _
  · obtain ⟨c, hc, hmem, hall⟩ :=
      pickMax_total (fun a => min_value 9 (place b a)) a0 t
        (fun x _ => min_value_gt_negInf 9 (place b x))
    refine ⟨c, ?_, hat ▸ hmem, fun _ m hm => hall m (hat ▸ hm), fun hO => ?_⟩
    · rw [minimax_eq_pickMax hterm hp, hat]
      exact hc
    · exact Player.noConfusion hO
  · obtain ⟨c, hc, hmem, hall⟩ :=
      pickMin_total (fun a => max_value 9 (place b a)) a0 t
        (fun x _ => max_value_lt_posInf 9 (place b x))
    refine ⟨c, ?_, hat ▸ hmem, fun hX => ?_, fun _ m hm => hall m (hat ▸ hm)⟩
    · rw [minimax_eq_pickMin hterm hp, hat]
      exact hc
    · exact Player.noConfusion hX

/-- Claim C2 as stated is refuted by this counterexample: a board whose top
row is won by X is terminal, yet its four empty cells are still returned as
legal moves. -/
theorem actions_terminal_counterexample :
    terminal wonBoard = true ∧ actions wonBoard ≠ [] := by
  constructor
  · decide
  · decide

/-- Claim C2, amended: actions is exactly the duplicate-free set of
coordinates of empty cells, and it is empty exactly on full boards; a
terminal board that still has empty cells (a won board) keeps them as legal
moves. -/
theorem actions_spec (b : Board) :
    (actions b).Nodup ∧
    (∀ m : Move, m ∈ actions b ↔ cell b m.1 m.2 = none) ∧
    (actions b = [] ↔ ∀ i j : Fin 3, cell b i j ≠ none) := by
  refine ⟨actions_nodup b, fun m => mem_actions, ?_⟩
  constructor
  · intro h i j
    intro hc
    have : (i, j) ∈ actions b := mem_actions.mpr hc
    rw [h] at this
    exact List.not_mem_nil _ this
  · intro h
    by_contra hne
    obtain ⟨m, hm⟩ := List.exists_mem_of_ne_nil _ hne
    exact h m.1 m.2 (mem_actions.mp hm)

/-- Claim C4: result fails (with the InvalidMove error) exactly when the
target cell is occupied; the embedding is a pure function, so the input
board is untouched on the error path (the Python code raises before its
deep copy, so it never mutates the input either). -/
theorem result_error_iff_occupied (b : Board) (m : Move) :
    (∃ e, result b m = Except.error e) ↔ cell b m.1 m.2 ≠ none := by
  unfold result
  by_cases h : cell b m.1 m.2 ≠ none
  · rw [if_pos h]
    exact ⟨fun _ => h, fun _ => ⟨_, rfl⟩⟩
  · rw [if_neg h]
    constructor
    · intro ⟨e, he⟩
      exact Except.noConfusion he
    · intro hc
      exact absurd hc h

/-- Claim C5: on a legal move, result succeeds with a new board whose target
cell holds the mark of the side to move on the input board and whose other
eight cells are unchanged; the input board itself is a value that the pure
function never mutates. -/
theorem result_legal_move (b : Board) (m : Move) (h : cell b m.1 m.2 = none) :
    result b m = Except.ok (place b m) ∧
    cell (place b m) m.1 m.2 = some (player b) ∧
    ∀ i j : Fin 3, (i, j) ≠ m → cell (place b m) i j = cell b i j := by
  refine ⟨?_, ?_, ?_⟩
  · unfold result
    rw [if_neg (by rw [h]; exact fun hc => hc rfl)]
  · unfold place
    exact cell_setCell_self b m.1 m.2 _
  · intro i j hne
    unfold place
    exact cell_setCell_other b m.1 m.2 i j _ (by
      intro hc
      exact hne (by rw [hc]))

theorem result_legal_move_witness :
    result initial_state (0, 0) = Except.ok (place initial_state (0, 0)) ∧
    cell (place initial_state (0, 0)) 0 0 = some (player initial_state) ∧
    ∀ i j : Fin 3, (i, j) ≠ ((0 : Fin 3), (0 : Fin 3)) →
      cell (place initial_state (0, 0)) i j = cell initial_state i j :=
  result_legal_move initial_state (0, 0) (by decide)

lemma finRange3 : List.finRange 3 = [0, 1, 2] := rfl

lemma checkLine_eq (a c d : Cell) :
    (if c = a ∧ d = a ∧ a.isSome then a else none) = checkLine a c d := by
  revert a c d
  decide

/-- Claim C6: winner scans the eight lines in the fixed order rows, columns,
main diagonal, anti-diagonal and returns the first fully matched line's
mark, none when no line matches, on every board (also on boards with more
than one matched line). -/
theorem winner_eq_winnerSpec (b : Board) : winner b = winnerSpec b := by
  unfold winner winnerSpec specLines
  rw [finRange3]
  simp only [List.findSome?_cons, List.findSome?_nil, checkLine_eq]
  cases checkLine (cell b 0 0) (cell b 0 1) (cell b 0 2) <;>
    cases checkLine (cell b 1 0) (cell b 1 1) (cell b 1 2) <;>
    cases checkLine (cell b 2 0) (cell b 2 1) (cell b 2 2) <;>
    cases checkLine (cell b 0 0) (cell b 1 0) (cell b 2 0) <;>
    cases checkLine (cell b 0 1) (cell b 1 1) (cell b 2 1) <;>
    cases checkLine (cell b 0 2) (cell b 1 2) (cell b 2 2) <;>
    cases checkLine (cell b 0 0) (cell b 1 1) (cell b 2 2) <;>
    cases checkLine (cell b 0 2) (cell b 1 1) (cell b 2 0) <;>
    rfl

lemma xCount_setCell (b : Board) (i j : Fin 3) (p : Player) (h : cell b i j = none) :
    xCount (setCell b i j (some p)) = xCount b + (if p = Player.X then 1 else 0) := by
  obtain ⟨c00, c01, c02, c10, c11, c12, c20, c21, c22⟩ := b
  fin_cases i <;> fin_cases j <;>
    (simp only [cell] at h; subst h) <;>
    (cases p <;> simp [xCount, rows, rowList, cell, setCell, finRange3, List.count_cons] <;> omega)

lemma oCount_setCell (b : Board) (i j : Fin 3) (p : Player) (h : cell b i j = none) :
    oCount (setCell b i j (some p)) = oCount b + (if p = Player.O then 1 else 0) := by
  obtain ⟨c00, c01, c02, c10, c11, c12, c20, c21, c22⟩ := b
  fin_cases i <;> fin_cases j <;>
    (simp only [cell] at h; subst h) <;>
    (cases p <;> simp [oCount, rows, rowList, cell, setCell, finRange3, List.count_cons] <;> omega)

/-- Claim C9: the first player's mark X is to move on the initial empty
board, and on every reachable board (X count equal to the O count or one
ahead) applying any legal move flips the player to move. -/
theorem player_alternates (b : Board)
    (hreach : xCount b = oCount b ∨ xCount b = oCount b + 1)
    (m : Move) (b2 : Board) (happ : result b m = Except.ok b2) :
    player initial_state = Player.X ∧ player b2 ≠ player b := by
  refine ⟨by decide, ?_⟩
  have hcell : cell b m.1 m.2 = none := by
    by_contra hc
    unfold result at happ
    rw [if_pos hc] at happ
    exact Except.noConfusion happ
  have hb2 : b2 = place b m := by
    unfold result at happ
    rw [if_neg (by rw [hcell]; exact fun hc => hc rfl)] at happ
    exact (Except.ok.injEq _ _ ▸ happ).symm
  subst hb2
  unfold place
  by_cases hp : xCount b ≤ oCount b
  · have hpx : player b = Player.X := by unfold player; rw [if_pos hp]
    rw [hpx]
    have hx := xCount_setCell b m.1 m.2 Player.X hcell
    have ho := oCount_setCell b m.1 m.2 Player.X hcell
    rw [if_pos rfl] at hx
    rw [if_neg (by intro hc; exact Player.noConfusion hc)] at ho
    have : ¬ xCount (setCell b m.1 m.2 (some Player.X)) ≤
        oCount (setCell b m.1 m.2 (some Player.X)) := by
      rw [hx, ho]
      omega
    unfold player
    rw [if_neg this]
    intro hc
    exact Player.noConfusion hc
  · have hpo : player b = Player.O := by unfold player; rw [if_neg hp]
    rw [hpo]
    have hx := xCount_setCell b m.1 m.2 Player.O hcell
    have ho := oCount_setCell b m.1 m.2 Player.O hcell
    rw [if_neg (by intro hc; exact Player.noConfusion hc)] at hx
    rw [if_pos rfl] at ho
    have : xCount (setCell b m.1 m.2 (some Player.O)) ≤
        oCount (setCell b m.1 m.2 (some Player.O)) := by
      rw [hx, ho]
      omega
    unfold player
    rw [if_pos this]
    intro hc
    exact Player.noConfusion hc

theorem player_alternates_witness :
    (xCount initial_state = oCount initial_state ∨
      xCount initial_state = oCount initial_state + 1) ∧
    (player initial_state = Player.X ∧
      player (place initial_state (1, 1)) ≠ player initial_state) := by
  constructor
  · exact Or.inl (by decide)
  · exact player_alternates initial_state (Or.inl (by decide)) (1, 1)
      (place initial_state (1, 1)) rfl

lemma countP_succ_of_flip {α : Type} :
    ∀ l : List α, l.Nodup → ∀ (p q : α → Bool) (m : α), m ∈ l →
      p m = true → q m = false → (∀ x ∈ l, x ≠ m → q x = p x) →
      l.countP q + 1 = l.countP p := by
  intro l
  induction l with
  | nil => intro _ p q m hm; exact absurd hm (List.not_mem_nil m)
  | cons a t ih =>
    intro hnd p q m hm hp hq hcong
    rcases List.mem_cons.mp hm with h | h
    · subst h
      rw [List.countP_cons, List.countP_cons, hp, hq]
      have : t.countP q = t.countP p := by
        apply List.countP_congr
        intro x hx
        have hxm : x ≠ m := by
          intro hc
          subst hc
          exact (List.nodup_cons.mp hnd).1 hx
        simp [hcong x (List.mem_cons_of_mem _ hx) hxm]
      simp [this]
    · have ham : a ≠ m := by
        intro hc
        subst hc
        exact (List.nodup_cons.mp hnd).1 h
      rw [List.countP_cons, List.countP_cons, hcong a (List.mem_cons_self a t) ham]
      have := ih (List.nodup_cons.mp hnd).2 p q m h hp hq
        (fun x hx hxm => hcong x (List.mem_cons_of_mem _ hx) hxm)
      omega

lemma actions_place_length {b : Board} {m : Move} (hm : m ∈ actions b) :
    (actions (place b m)).length + 1 = (actions b).length := by
  unfold actions
  rw [← List.countP_eq_length_filter, ← List.countP_eq_length_filter]
  apply countP_succ_of_flip allCells allCells_nodup _ _ m (mem_allCells m)
  · simp [mem_actions.mp hm]
  · unfold place
    simp [cell_setCell_self]
  · intro x _ hxm
    unfold place
    rw [cell_setCell_other b m.1 m.2 x.1 x.2 _ (by
      intro hc
      exact hxm (by rw [Prod.ext_iff] at hc; exact Prod.ext hc.1 hc.2))]

lemma value_terminal (f : Nat) (b : Board) (h : terminal b = true) :
    max_value f b = utility b ∧ min_value f b = utility b := by
  cases f with
  | zero =>
    rw [max_value_zero, min_value_zero, if_pos h]
    exact ⟨rfl, rfl⟩
  | succ f =>
    rw [max_value_succ, min_value_succ, if_pos h, if_pos h]
    exact ⟨rfl, rfl⟩

lemma value_fuel_canon : ∀ (f : Nat) (b : Board), (actions b).length ≤ f →
    max_value f b = max_value (actions b).length b ∧
    min_value f b = min_value (actions b).length b := by
  intro f
  induction f with
  | zero =>
    intro b h
    rw [Nat.le_zero.mp h]
    exact ⟨rfl, rfl⟩
  | succ f ih =>
    intro b h
    by_cases ht : terminal b = true
    · rw [(value_terminal _ _ ht).1, (value_terminal _ _ ht).2,
        (value_terminal _ _ ht).1, (value_terminal _ _ ht).2]
      exact ⟨rfl, rfl⟩
    · have ht2 : terminal b = false := by rwa [Bool.not_eq_true] at ht
      have hne := actions_ne_nil_of_not_terminal ht2
      have hlen : (actions b).length ≠ 0 := by
        intro hc
        exact hne (List.length_eq_zero.mp hc)
      obtain ⟨l, hl⟩ : ∃ l, (actions b).length = l + 1 :=
        ⟨(actions b).length - 1, by omega⟩
      rw [hl, max_value_succ, max_value_succ, min_value_succ, min_value_succ,
        if_neg ht, if_neg ht, if_neg ht, if_neg ht]
      have hchild : ∀ a ∈ actions b, (actions (place b a)).length = l := by
        intro a ha
        have := actions_place_length ha
        omega
      have hlf : l ≤ f := by omega
      constructor
      · apply List.foldl_ext
        intro v a ha
        have hc := (ih (place b a) (by rw [hchild a ha]; exact hlf)).2
        rw [hchild a ha] at hc
        rw [hc]
      · apply List.foldl_ext
        intro v a ha
        have hc := (ih (place b a) (by rw [hchild a ha]; exact hlf)).1
        rw [hchild a ha] at hc
        rw [hc]

/-- Claim C10: the recursion of the search is well founded because every
recursive call is on a board with exactly one empty cell fewer, and any fuel
at least the number of empty cells computes the same value, so max_value,
min_value and minimax with fuel 9 are the total functions the source's
unbounded recursion denotes. -/
theorem search_terminates :
    (∀ (b : Board) (m : Move), m ∈ actions b →
      (actions (place b m)).length < (actions b).length) ∧
    (∀ (f1 f2 : Nat) (b : Board), (actions b).length ≤ f1 → (actions b).length ≤ f2 →
      max_value f1 b = max_value f2 b ∧ min_value f1 b = min_value f2 b) := by
  constructor
  · intro b m hm
    have := actions_place_length hm
    omega
  · intro f1 f2 b h1 h2
    have c1 := value_fuel_canon f1 b h1
    have c2 := value_fuel_canon f2 b h2
    exact ⟨c1.1.trans c2.1.symm, c1.2.trans c2.2.symm⟩

theorem search_terminates_witness :
    (0, 0) ∈ actions initial_state ∧
    (actions (place initial_state (0, 0))).length < (actions initial_state).length ∧
    max_value 9 initial_state = max_value 10 initial_state := by
  refine ⟨by decide, ?_, ?_⟩
  · exact search_terminates.1 initial_state (0, 0) (by decide)
  · exact (search_terminates.2 9 10 initial_state (by decide) (by decide)).1

/-- Claim C7: on the board [[X, X, _], [O, O, _], [_, _, _]] it is X's turn
and minimax returns exactly (0, 2), the immediate winning move; that move is
the unique legal move of backed-up value 1, so any iteration order yields
it. -/
theorem scenario_win_in_one :
    player scenarioBoard = Player.X ∧
    minimax scenarioBoard = some (0, 2) ∧
    min_value 9 (place scenarioBoard (0, 2)) = 1 ∧
    (actions scenarioBoard).filter
      (fun m => min_value 9 (place scenarioBoard m) == 1) = [(0, 2)] := by
  refine ⟨by decide, by decide!, by decide!, by decide!⟩

lemma certChk_zero (lo isMax : Bool) (b : Board) (t : Int) (c : Cert) :
    certChk 0 lo isMax b t c =
      (if terminal b then (if lo then decide (t ≤ utility b) else decide (utility b ≤ t))
       else (if lo then decide (t ≤ 0) else decide (0 ≤ t))) := rfl

lemma certChk_succ (f : Nat) (lo isMax : Bool) (b : Board) (t : Int) (c : Cert) :
    certChk (f + 1) lo isMax b t c =
      (if terminal b then (if lo then decide (t ≤ utility b) else decide (utility b ≤ t))
       else if lo == isMax then
        match c with
        | Cert.move m c2 => decide (m ∈ actions b) && certChk f lo (!isMax) (place b m) t c2
        | _ => false
      else
        match c with
        | Cert.branch cs =>
          (actions b).length == cs.length &&
          ((actions b).zip cs).all (fun p => certChk f lo (!isMax) (place b p.1) t p.2)
        | _ => false) := rfl

lemma exists_zip_mem {α β : Type} :
    ∀ (l : List α) (l2 : List β), l.length = l2.length →
      ∀ a ∈ l, ∃ c, (a, c) ∈ l.zip l2 := by
  intro l
  induction l with
  | nil => intro l2 _ a ha; exact absurd ha (List.not_mem_nil a)
  | cons x t ih =>
    intro l2 hlen a ha
    cases l2 with
    | nil => simp at hlen
    | cons y t2 =>
      rcases List.mem_cons.mp ha with h | h
      · exact ⟨y, by rw [h]; exact List.mem_cons_self _ _⟩
      · obtain ⟨c, hc⟩ := ih t2 (by simpa using hlen) a h
        exact ⟨c, List.mem_cons_of_mem _ hc⟩

lemma certChk_le : ∀ (f : Nat) (isMax : Bool) (b : Board) (t : Int) (c : Cert),
    certChk f true isMax b t c = true →
    (isMax = true → t ≤ max_value f b) ∧ (isMax = false → t ≤ min_value f b) := by
  intro f
  induction f with
  | zero =>
    intro isMax b t c h
    rw [certChk_zero] at h
    by_cases ht : terminal b = true
    · rw [if_pos ht] at h
      replace h : t ≤ utility b := of_decide_eq_true h
      exact ⟨fun _ => (value_terminal 0 b ht).1 ▸ h, fun _ => (value_terminal 0 b ht).2 ▸ h⟩
    · rw [if_neg ht] at h
      replace h : t ≤ 0 := of_decide_eq_true h
      constructor
      · intro _
        rw [max_value_zero, if_neg ht]
        exact h
      · intro _
        rw [min_value_zero, if_neg ht]
        exact h
  | succ f ih =>
    intro isMax b t c h
    rw [certChk_succ] at h
    by_cases ht : terminal b = true
    · rw [if_pos ht] at h
      replace h : t ≤ utility b := of_decide_eq_true h
      exact ⟨fun _ => (value_terminal _ b ht).1 ▸ h, fun _ => (value_terminal _ b ht).2 ▸ h⟩
    · rw [if_neg ht] at h
      have ht2 : terminal b = false := by rwa [Bool.not_eq_true] at ht
      constructor
      · intro hmx
        subst hmx
        cases c with
        | leaf => exact Bool.noConfusion (show false = true from h)
        | branch cs => exact Bool.noConfusion (show false = true from h)
        | move m c2 =>
          replace h : (decide (m ∈ actions b) &&
              certChk f true false (place b m) t c2) = true := h
          rw [Bool.and_eq_true, decide_eq_true_eq] at h
          obtain ⟨hm, hc2⟩ := h
          have hch := (ih false (place b m) t c2 hc2).2 rfl
          rw [max_value_succ, if_neg ht]
          exact le_trans hch
            (mem_le_foldl_max (fun a => min_value f (place b a)) (actions b) negInf m hm)
      · intro hmx
        subst hmx
        cases c with
        | leaf => exact Bool.noConfusion (show false = true from h)
        | move m c2 => exact Bool.noConfusion (show false = true from h)
        | branch cs =>
          replace h : ((actions b).length == cs.length &&
              ((actions b).zip cs).all
                (fun p => certChk f true true (place b p.1) t p.2)) = true := h
          rw [Bool.and_eq_true] at h
          obtain ⟨hlen, hall⟩ := h
          rw [Nat.beq_eq_true_eq] at hlen
          have hpt : ∀ a ∈ actions b, t ≤ max_value f (place b a) := by
            intro a ha
            obtain ⟨c2, hzip⟩ := exists_zip_mem _ _ hlen a ha
            exact (ih true (place b a) t c2 (List.all_eq_true.mp hall _ hzip)).1 rfl
          obtain ⟨a0, ha0⟩ := List.exists_mem_of_ne_nil _ (actions_ne_nil_of_not_terminal ht2)
          rw [min_value_succ, if_neg ht]
          apply le_foldl_min _ t
          · have h1 := hpt a0 ha0
            have h2 := (value_range f (place b a0)).1.2
            unfold posInf
            omega
          · exact hpt

lemma certChk_ge : ∀ (f : Nat) (isMax : Bool) (b : Board) (t : Int) (c : Cert),
    certChk f false isMax b t c = true →
    (isMax = true → max_value f b ≤ t) ∧ (isMax = false → min_value f b ≤ t) := by
  intro f
  induction f with
  | zero =>
    intro isMax b t c h
    rw [certChk_zero] at h
    by_cases ht : terminal b = true
    · rw [if_pos ht] at h
      replace h : utility b ≤ t := of_decide_eq_true h
      exact ⟨fun _ => (value_terminal 0 b ht).1 ▸ h, fun _ => (value_terminal 0 b ht).2 ▸ h⟩
    · rw [if_neg ht] at h
      replace h : (0 : Int) ≤ t := of_decide_eq_true h
      constructor
      · intro _
        rw [max_value_zero, if_neg ht]
        exact h
      · intro _
        rw [min_value_zero, if_neg ht]
        exact h
  | succ f ih =>
    intro isMax b t c h
    rw [certChk_succ] at h
    by_cases ht : terminal b = true
    · rw [if_pos ht] at h
      replace h : utility b ≤ t := of_decide_eq_true h
      exact ⟨fun _ => (value_terminal _ b ht).1 ▸ h, fun _ => (value_terminal _ b ht).2 ▸ h⟩
    · rw [if_neg ht] at h
      have ht2 : terminal b = false := by rwa [Bool.not_eq_true] at ht
      constructor
      · intro hmx
        subst hmx
        cases c with
        | leaf => exact Bool.noConfusion (show false = true from h)
        | move m c2 => exact Bool.noConfusion (show false = true from h)
        | branch cs =>
          replace h : ((actions b).length == cs.length &&
              ((actions b).zip cs).all
                (fun p => certChk f false false (place b p.1) t p.2)) = true := h
          rw [Bool.and_eq_true] at h
          obtain ⟨hlen, hall⟩ := h
          rw [Nat.beq_eq_true_eq] at hlen
          have hpt : ∀ a ∈ actions b, min_value f (place b a) ≤ t := by
            intro a ha
            obtain ⟨c2, hzip⟩ := exists_zip_mem _ _ hlen a ha
            exact (ih false (place b a) t c2 (List.all_eq_true.mp hall _ hzip)).2 rfl
          obtain ⟨a0, ha0⟩ := List.exists_mem_of_ne_nil _ (actions_ne_nil_of_not_terminal ht2)
          rw [max_value_succ, if_neg ht]
          apply foldl_max_le _ t
          · have h1 := hpt a0 ha0
            have h2 := (value_range f (place b a0)).2.1
            unfold negInf
            omega
          · exact hpt
      · intro hmx
        subst hmx
        cases c with
        | leaf => exact Bool.noConfusion (show false = true from h)
        | branch cs => exact Bool.noConfusion (show false = true from h)
        | move m c2 =>
          replace h : (decide (m ∈ actions b) &&
              certChk f false true (place b m) t c2) = true := h
          rw [Bool.and_eq_true, decide_eq_true_eq] at h
          obtain ⟨hm, hc2⟩ := h
          have hch := (ih true (place b m) t c2 hc2).1 rfl
          rw [min_value_succ, if_neg ht]
          exact le_trans
            (foldl_min_le_mem (fun a => max_value f (place b a)) (actions b) posInf m hm) hch

lemma minimax_step_X (b : Board) (l1 l2 : List Move) (m : Move) (v : Int)
    (hterm : terminal b = false) (hp : player b = Player.X)
    (hact : actions b = l1 ++ m :: l2)
    (hv : min_value 9 (place b m) = v)
    (h1 : ∀ x ∈ l1, min_value 9 (place b x) < v)
    (h2 : ∀ x ∈ l2, min_value 9 (place b x) ≤ v) :
    minimax b = some m := by
  rw [minimax_eq_pickMax (by rw [hterm]; exact fun hc => Bool.noConfusion hc) hp, hact]
  have hres := pickMax_first (fun a => min_value 9 (place b a)) l1 l2 m
    (fun x hx => by
      show min_value 9 (place b x) < min_value 9 (place b m)
      rw [hv]
      exact h1 x hx)
    (fun x hx => by
      show min_value 9 (place b x) ≤ min_value 9 (place b m)
      rw [hv]
      exact h2 x hx)
    ((none : Option Move), negInf)
    (show negInf < min_value 9 (place b m) from min_value_gt_negInf 9 (place b m))
  rw [hres]

lemma minimax_step_O (b : Board) (l1 l2 : List Move) (m : Move) (v : Int)
    (hterm : terminal b = false) (hp : player b = Player.O)
    (hact : actions b = l1 ++ m :: l2)
    (hv : max_value 9 (place b m) = v)
    (h1 : ∀ x ∈ l1, v < max_value 9 (place b x))
    (h2 : ∀ x ∈ l2, v ≤ max_value 9 (place b x)) :
    minimax b = some m := by
  rw [minimax_eq_pickMin (by rw [hterm]; exact fun hc => Bool.noConfusion hc) hp, hact]
  have hres := pickMin_first (fun a => max_value 9 (place b a)) l1 l2 m
    (fun x hx => by
      show max_value 9 (place b m) < max_value 9 (place b x)
      rw [hv]
      exact h1 x hx)
    (fun x hx => by
      show max_value 9 (place b m) ≤ max_value 9 (place b x)
      rw [hv]
      exact h2 x hx)
    ((none : Option Move), posInf)
    (show max_value 9 (place b m) < posInf from max_value_lt_posInf 9 (place b m))
  rw [hres]

lemma selfPlay_succ (n : Nat) (b : Board) :
    selfPlay (n + 1) b =
      match minimax b with
      | none => b
      | some m => selfPlay n (place b m) := rfl

theorem minimax_optimal_witness :
    terminal scenarioBoard = false ∧
    ∃ a, minimax scenarioBoard = some a ∧ a ∈ actions scenarioBoard ∧
      (player scenarioBoard = Player.X →
        ∀ m ∈ actions scenarioBoard,
          min_value 9 (place scenarioBoard m) ≤ min_value 9 (place scenarioBoard a)) ∧
      (player scenarioBoard = Player.O →
        ∀ m ∈ actions scenarioBoard,
          max_value 9 (place scenarioBoard a) ≤ max_value 9 (place scenarioBoard m)) :=
  ⟨by decide, minimax_optimal scenarioBoard (by decide)⟩

lemma c8fact1 : min_value 9 (place initial_state (0, 0)) = 0 :=
  le_antisymm ((certChk_ge 9 false (place initial_state (0, 0)) (0 : Int) c8cert2 (by decide!)).2 rfl)
    ((certChk_le 9 false (place initial_state (0, 0)) (0 : Int) c8cert1 (by decide!)).2 rfl)

lemma c8fact2 : min_value 9 (place initial_state (0, 1)) ≤ 0 :=
  (certChk_ge 9 false (place initial_state (0, 1)) (0 : Int) c8cert3 (by decide!)).2 rfl

lemma c8fact3 : min_value 9 (place initial_state (0, 2)) ≤ 0 :=
  (certChk_ge 9 false (place initial_state (0, 2)) (0 : Int) c8cert4 (by decide!)).2 rfl

lemma c8fact4 : min_value 9 (place initial_state (1, 0)) ≤ 0 :=
  (certChk_ge 9 false (place initial_state (1, 0)) (0 : Int) c8cert5 (by decide!)).2 rfl

lemma c8fact5 : min_value 9 (place initial_state (1, 1)) ≤ 0 :=
  (certChk_ge 9 false (place initial_state (1, 1)) (0 : Int) c8cert6 (by decide!)).2 rfl

lemma c8fact6 : min_value 9 (place initial_state (1, 2)) ≤ 0 :=
  (certChk_ge 9 false (place initial_state (1, 2)) (0 : Int) c8cert7 (by decide!)).2 rfl

lemma c8fact7 : min_value 9 (place initial_state (2, 0)) ≤ 0 :=
  (certChk_ge 9 false (place initial_state (2, 0)) (0 : Int) c8cert8 (by decide!)).2 rfl

lemma c8fact8 : min_value 9 (place initial_state (2, 1)) ≤ 0 :=
  (certChk_ge 9 false (place initial_state (2, 1)) (0 : Int) c8cert9 (by decide!)).2 rfl

lemma c8fact9 : min_value 9 (place initial_state (2, 2)) ≤ 0 :=
  (certChk_ge 9 false (place initial_state (2, 2)) (0 : Int) c8cert10 (by decide!)).2 rfl

lemma c8fact10 : max_value 9 (place c8b1 (1, 1)) = 0 :=
  le_antisymm ((certChk_ge 9 true (place c8b1 (1, 1)) (0 : Int) c8cert12 (by decide!)).1 rfl)
    ((certChk_le 9 true (place c8b1 (1, 1)) (0 : Int) c8cert11 (by decide!)).1 rfl)

lemma c8fact11 : 1 ≤ max_value 9 (place c8b1 (0, 1)) :=
  (certChk_le 9 true (place c8b1 (0, 1)) (1 : Int) c8cert13 (by decide!)).1 rfl

lemma c8fact12 : 1 ≤ max_value 9 (place c8b1 (0, 2)) :=
  (certChk_le 9 true (place c8b1 (0, 2)) (1 : Int) c8cert14 (by decide!)).1 rfl

lemma c8fact13 : 1 ≤ max_value 9 (place c8b1 (1, 0)) :=
  (certChk_le 9 true (place c8b1 (1, 0)) (1 : Int) c8cert15 (by decide!)).1 rfl

lemma c8fact14 : 0 ≤ max_value 9 (place c8b1 (1, 2)) :=
  (certChk_le 9 true (place c8b1 (1, 2)) (0 : Int) c8cert16 (by decide!)).1 rfl

lemma c8fact15 : 0 ≤ max_value 9 (place c8b1 (2, 0)) :=
  (certChk_le 9 true (place c8b1 (2, 0)) (0 : Int) c8cert17 (by decide!)).1 rfl

lemma c8fact16 : 0 ≤ max_value 9 (place c8b1 (2, 1)) :=
  (certChk_le 9 true (place c8b1 (2, 1)) (0 : Int) c8cert18 (by decide!)).1 rfl

lemma c8fact17 : 0 ≤ max_value 9 (place c8b1 (2, 2)) :=
  (certChk_le 9 true (place c8b1 (2, 2)) (0 : Int) c8cert19 (by decide!)).1 rfl

lemma c8fact18 : min_value 9 (place c8b2 (0, 1)) = 0 :=
  le_antisymm ((certChk_ge 9 false (place c8b2 (0, 1)) (0 : Int) c8cert21 (by decide!)).2 rfl)
    ((certChk_le 9 false (place c8b2 (0, 1)) (0 : Int) c8cert20 (by decide!)).2 rfl)

lemma c8fact19 : min_value 9 (place c8b2 (0, 2)) ≤ 0 :=
  (certChk_ge 9 false (place c8b2 (0, 2)) (0 : Int) c8cert22 (by decide!)).2 rfl

lemma c8fact20 : min_value 9 (place c8b2 (1, 0)) ≤ 0 :=
  (certChk_ge 9 false (place c8b2 (1, 0)) (0 : Int) c8cert23 (by decide!)).2 rfl

lemma c8fact21 : min_value 9 (place c8b2 (1, 2)) ≤ 0 :=
  (certChk_ge 9 false (place c8b2 (1, 2)) (0 : Int) c8cert24 (by decide!)).2 rfl

lemma c8fact22 : min_value 9 (place c8b2 (2, 0)) ≤ 0 :=
  (certChk_ge 9 false (place c8b2 (2, 0)) (0 : Int) c8cert25 (by decide!)).2 rfl

lemma c8fact23 : min_value 9 (place c8b2 (2, 1)) ≤ 0 :=
  (certChk_ge 9 false (place c8b2 (2, 1)) (0 : Int) c8cert26 (by decide!)).2 rfl

lemma c8fact24 : min_value 9 (place c8b2 (2, 2)) ≤ 0 :=
  (certChk_ge 9 false (place c8b2 (2, 2)) (0 : Int) c8cert27 (by decide!)).2 rfl

lemma c8fact25 : max_value 9 (place c8b3 (0, 2)) = 0 :=
  le_antisymm ((certChk_ge 9 true (place c8b3 (0, 2)) (0 : Int) c8cert29 (by decide!)).1 rfl)
    ((certChk_le 9 true (place c8b3 (0, 2)) (0 : Int) c8cert28 (by decide!)).1 rfl)

lemma c8fact26 : 0 ≤ max_value 9 (place c8b3 (1, 0)) :=
  (certChk_le 9 true (place c8b3 (1, 0)) (0 : Int) c8cert30 (by decide!)).1 rfl

lemma c8fact27 : 0 ≤ max_value 9 (place c8b3 (1, 2)) :=
  (certChk_le 9 true (place c8b3 (1, 2)) (0 : Int) c8cert31 (by decide!)).1 rfl

lemma c8fact28 : 0 ≤ max_value 9 (place c8b3 (2, 0)) :=
  (certChk_le 9 true (place c8b3 (2, 0)) (0 : Int) c8cert32 (by decide!)).1 rfl

lemma c8fact29 : 0 ≤ max_value 9 (place c8b3 (2, 1)) :=
  (certChk_le 9 true (place c8b3 (2, 1)) (0 : Int) c8cert33 (by decide!)).1 rfl

lemma c8fact30 : 0 ≤ max_value 9 (place c8b3 (2, 2)) :=
  (certChk_le 9 true (place c8b3 (2, 2)) (0 : Int) c8cert34 (by decide!)).1 rfl

lemma c8fact31 : min_value 9 (place c8b4 (2, 0)) = 0 :=
  le_antisymm ((certChk_ge 9 false (place c8b4 (2, 0)) (0 : Int) c8cert36 (by decide!)).2 rfl)
    ((certChk_le 9 false (place c8b4 (2, 0)) (0 : Int) c8cert35 (by decide!)).2 rfl)

lemma c8fact32 : min_value 9 (place c8b4 (1, 0)) ≤ -1 :=
  (certChk_ge 9 false (place c8b4 (1, 0)) (-1 : Int) c8cert37 (by decide!)).2 rfl

lemma c8fact33 : min_value 9 (place c8b4 (1, 2)) ≤ -1 :=
  (certChk_ge 9 false (place c8b4 (1, 2)) (-1 : Int) c8cert38 (by decide!)).2 rfl

lemma c8fact34 : min_value 9 (place c8b4 (2, 1)) ≤ 0 :=
  (certChk_ge 9 false (place c8b4 (2, 1)) (0 : Int) c8cert39 (by decide!)).2 rfl

lemma c8fact35 : min_value 9 (place c8b4 (2, 2)) ≤ 0 :=
  (certChk_ge 9 false (place c8b4 (2, 2)) (0 : Int) c8cert40 (by decide!)).2 rfl

lemma c8fact36 : max_value 9 (place c8b5 (1, 0)) = 0 :=
  le_antisymm ((certChk_ge 9 true (place c8b5 (1, 0)) (0 : Int) c8cert42 (by decide!)).1 rfl)
    ((certChk_le 9 true (place c8b5 (1, 0)) (0 : Int) c8cert41 (by decide!)).1 rfl)

lemma c8fact37 : 0 ≤ max_value 9 (place c8b5 (1, 2)) :=
  (certChk_le 9 true (place c8b5 (1, 2)) (0 : Int) c8cert43 (by decide!)).1 rfl

lemma c8fact38 : 0 ≤ max_value 9 (place c8b5 (2, 1)) :=
  (certChk_le 9 true (place c8b5 (2, 1)) (0 : Int) c8cert44 (by decide!)).1 rfl

lemma c8fact39 : 0 ≤ max_value 9 (place c8b5 (2, 2)) :=
  (certChk_le 9 true (place c8b5 (2, 2)) (0 : Int) c8cert45 (by decide!)).1 rfl

lemma c8fact40 : min_value 9 (place c8b6 (1, 2)) = 0 :=
  le_antisymm ((certChk_ge 9 false (place c8b6 (1, 2)) (0 : Int) c8cert47 (by decide!)).2 rfl)
    ((certChk_le 9 false (place c8b6 (1, 2)) (0 : Int) c8cert46 (by decide!)).2 rfl)

lemma c8fact41 : min_value 9 (place c8b6 (2, 1)) ≤ 0 :=
  (certChk_ge 9 false (place c8b6 (2, 1)) (0 : Int) c8cert48 (by decide!)).2 rfl

lemma c8fact42 : min_value 9 (place c8b6 (2, 2)) ≤ 0 :=
  (certChk_ge 9 false (place c8b6 (2, 2)) (0 : Int) c8cert49 (by decide!)).2 rfl

lemma c8fact43 : max_value 9 (place c8b7 (2, 1)) = 0 :=
  le_antisymm ((certChk_ge 9 true (place c8b7 (2, 1)) (0 : Int) c8cert51 (by decide!)).1 rfl)
    ((certChk_le 9 true (place c8b7 (2, 1)) (0 : Int) c8cert50 (by decide!)).1 rfl)

lemma c8fact44 : 0 ≤ max_value 9 (place c8b7 (2, 2)) :=
  (certChk_le 9 true (place c8b7 (2, 2)) (0 : Int) c8cert52 (by decide!)).1 rfl

lemma c8fact45 : min_value 9 (place c8b8 (2, 2)) = 0 :=
  le_antisymm ((certChk_ge 9 false (place c8b8 (2, 2)) (0 : Int) c8cert54 (by decide!)).2 rfl)
    ((certChk_le 9 false (place c8b8 (2, 2)) (0 : Int) c8cert53 (by decide!)).2 rfl)

lemma c8place0 : place initial_state (0, 0) = c8b1 := by decide

lemma c8place1 : place c8b1 (1, 1) = c8b2 := by decide

lemma c8place2 : place c8b2 (0, 1) = c8b3 := by decide

lemma c8place3 : place c8b3 (0, 2) = c8b4 := by decide

lemma c8place4 : place c8b4 (2, 0) = c8b5 := by decide

lemma c8place5 : place c8b5 (1, 0) = c8b6 := by decide

lemma c8place6 : place c8b6 (1, 2) = c8b7 := by decide

lemma c8place7 : place c8b7 (2, 1) = c8b8 := by decide

lemma c8place8 : place c8b8 (2, 2) = c8b9 := by decide

lemma c8step0 : minimax initial_state = some (0, 0) :=
  minimax_step_X initial_state [] [(0, 1), (0, 2), (1, 0), (1, 1), (1, 2), (2, 0), (2, 1), (2, 2)] (0, 0) (0 : Int) (by decide) (by decide) (by decide) c8fact1
    (by
    intro x hx
    exact absurd hx (List.not_mem_nil x))
    (by
    intro x hx
    fin_cases hx
    · exact c8fact2
    · exact c8fact3
    · exact c8fact4
    · exact c8fact5
    · exact c8fact6
    · exact c8fact7
    · exact c8fact8
    · exact c8fact9)

lemma c8step1 : minimax c8b1 = some (1, 1) :=
  minimax_step_O c8b1 [(0, 1), (0, 2), (1, 0)] [(1, 2), (2, 0), (2, 1), (2, 2)] (1, 1) (0 : Int) (by decide) (by decide) (by decide) c8fact10
    (by
    intro x hx
    fin_cases hx
    · exact lt_of_lt_of_le (by norm_num) c8fact11
    · exact lt_of_lt_of_le (by norm_num) c8fact12
    · exact lt_of_lt_of_le (by norm_num) c8fact13)
    (by
    intro x hx
    fin_cases hx
    · exact c8fact14
    · exact c8fact15
    · exact c8fact16
    · exact c8fact17)

lemma c8step2 : minimax c8b2 = some (0, 1) :=
  minimax_step_X c8b2 [] [(0, 2), (1, 0), (1, 2), (2, 0), (2, 1), (2, 2)] (0, 1) (0 : Int) (by decide) (by decide) (by decide) c8fact18
    (by
    intro x hx
    exact absurd hx (List.not_mem_nil x))
    (by
    intro x hx
    fin_cases hx
    · exact c8fact19
    · exact c8fact20
    · exact c8fact21
    · exact c8fact22
    · exact c8fact23
    · exact c8fact24)

lemma c8step3 : minimax c8b3 = some (0, 2) :=
  minimax_step_O c8b3 [] [(1, 0), (1, 2), (2, 0), (2, 1), (2, 2)] (0, 2) (0 : Int) (by decide) (by decide) (by decide) c8fact25
    (by
    intro x hx
    exact absurd hx (List.not_mem_nil x))
    (by
    intro x hx
    fin_cases hx
    · exact c8fact26
    · exact c8fact27
    · exact c8fact28
    · exact c8fact29
    · exact c8fact30)

lemma c8step4 : minimax c8b4 = some (2, 0) :=
  minimax_step_X c8b4 [(1, 0), (1, 2)] [(2, 1), (2, 2)] (2, 0) (0 : Int) (by decide) (by decide) (by decide) c8fact31
    (by
    intro x hx
    fin_cases hx
    · exact lt_of_le_of_lt c8fact32 (by norm_num)
    · exact lt_of_le_of_lt c8fact33 (by norm_num))
    (by
    intro x hx
    fin_cases hx
    · exact c8fact34
    · exact c8fact35)

lemma c8step5 : minimax c8b5 = some (1, 0) :=
  minimax_step_O c8b5 [] [(1, 2), (2, 1), (2, 2)] (1, 0) (0 : Int) (by decide) (by decide) (by decide) c8fact36
    (by
    intro x hx
    exact absurd hx (List.not_mem_nil x))
    (by
    intro x hx
    fin_cases hx
    · exact c8fact37
    · exact c8fact38
    · exact c8fact39)

lemma c8step6 : minimax c8b6 = some (1, 2) :=
  minimax_step_X c8b6 [] [(2, 1), (2, 2)] (1, 2) (0 : Int) (by decide) (by decide) (by decide) c8fact40
    (by
    intro x hx
    exact absurd hx (List.not_mem_nil x))
    (by
    intro x hx
    fin_cases hx
    · exact c8fact41
    · exact c8fact42)

lemma c8step7 : minimax c8b7 = some (2, 1) :=
  minimax_step_O c8b7 [] [(2, 2)] (2, 1) (0 : Int) (by decide) (by decide) (by decide) c8fact43
    (by
    intro x hx
    exact absurd hx (List.not_mem_nil x))
    (by
    intro x hx
    fin_cases hx
    · exact c8fact44)

lemma c8step8 : minimax c8b8 = some (2, 2) :=
  minimax_step_X c8b8 [] [] (2, 2) (0 : Int) (by decide) (by decide) (by decide) c8fact45
    (by
    intro x hx
    exact absurd hx (List.not_mem_nil x))
    (by
    intro x hx
    exact absurd hx (List.not_mem_nil x))

lemma c8run0 : selfPlay 9 initial_state = selfPlay 8 c8b1 := by
  rw [selfPlay_succ, c8step0]
  show selfPlay 8 (place initial_state (0, 0)) = selfPlay 8 c8b1
  rw [c8place0]

lemma c8run1 : selfPlay 8 c8b1 = selfPlay 7 c8b2 := by
  rw [selfPlay_succ, c8step1]
  show selfPlay 7 (place c8b1 (1, 1)) = selfPlay 7 c8b2
  rw [c8place1]

lemma c8run2 : selfPlay 7 c8b2 = selfPlay 6 c8b3 := by
  rw [selfPlay_succ, c8step2]
  show selfPlay 6 (place c8b2 (0, 1)) = selfPlay 6 c8b3
  rw [c8place2]

lemma c8run3 : selfPlay 6 c8b3 = selfPlay 5 c8b4 := by
  rw [selfPlay_succ, c8step3]
  show selfPlay 5 (place c8b3 (0, 2)) = selfPlay 5 c8b4
  rw [c8place3]

lemma c8run4 : selfPlay 5 c8b4 = selfPlay 4 c8b5 := by
  rw [selfPlay_succ, c8step4]
  show selfPlay 4 (place c8b4 (2, 0)) = selfPlay 4 c8b5
  rw [c8place4]

lemma c8run5 : selfPlay 4 c8b5 = selfPlay 3 c8b6 := by
  rw [selfPlay_succ, c8step5]
  show selfPlay 3 (place c8b5 (1, 0)) = selfPlay 3 c8b6
  rw [c8place5]

lemma c8run6 : selfPlay 3 c8b6 = selfPlay 2 c8b7 := by
  rw [selfPlay_succ, c8step6]
  show selfPlay 2 (place c8b6 (1, 2)) = selfPlay 2 c8b7
  rw [c8place6]

lemma c8run7 : selfPlay 2 c8b7 = selfPlay 1 c8b8 := by
  rw [selfPlay_succ, c8step7]
  show selfPlay 1 (place c8b7 (2, 1)) = selfPlay 1 c8b8
  rw [c8place7]

lemma c8run8 : selfPlay 1 c8b8 = selfPlay 0 c8b9 := by
  rw [selfPlay_succ, c8step8]
  show selfPlay 0 (place c8b8 (2, 2)) = selfPlay 0 c8b9
  rw [c8place8]

/-- Claim C8: self play from the empty board, each side playing the move
minimax returns, reaches a terminal board whose utility is 0, a draw.  The
nine chosen moves are certified optimal by the strategy certificates above
via the soundness of certChk. -/
theorem self_play_draw :
    terminal (selfPlay 9 initial_state) = true ∧ utility (selfPlay 9 initial_state) = 0 := by
  have e : selfPlay 9 initial_state = c8b9 := by
    rw [c8run0]
    rw [c8run1]
    rw [c8run2]
    rw [c8run3]
    rw [c8run4]
    rw [c8run5]
    rw [c8run6]
    rw [c8run7]
    rw [c8run8]
    rfl
  rw [e]
  exact ⟨by decide, by decide⟩
